import Mathlib

/-!
Verification of the aggregation pipeline of the tech-education resource
scraper (`src/scraper.py`).

The pipeline is embedded shallowly:

* Pure Python string operations are modelled character-exactly over
  `String.data` (`pyLower`, `pyCapitalize`, `pyStrip`, `pyTruncate`,
  `pyInStr`), matching Python's per-character `lower`, `capitalize`,
  `strip`, slicing `[:n]` and substring `in`.
* Every outside-world interaction is a field of `Env`: the Claude
  description service, the YouTube search request, the Microsoft Learn
  catalog request, and the run's current date. An `Except.error ()` value
  stands for "this call raised an exception".
* The curated static tables are transcribed verbatim from the source;
  Python `dict` literals become association lists and `dict.get(k, d)`
  becomes `(List.lookup k table).getD d`.
* The final file write is modelled separately by `write_catalog`, with
  Python's `open(path, "w")` truncate-on-open and `json.dump`'s
  incremental writes made explicit.
-/

namespace Scraper

/-- The persisted resource record, exactly the dict literal returned by
`build_resource` (src/scraper.py lines 110-120), fields in source order. -/
structure Resource where
  title : String
  url : String
  description : String
  platform : String
  category : String
  level : String
  free : Bool
  retrieved : String
  deriving DecidableEq, Repr

/-- Python `s.strip()`: drop whitespace from both ends, character-exactly. -/
def pyStrip (s : String) : String :=
  ⟨(((s.data.dropWhile Char.isWhitespace).reverse).dropWhile Char.isWhitespace).reverse⟩

/-- Python `s.lower()`: lower-case every character. -/
def pyLower (s : String) : String := ⟨s.data.map Char.toLower⟩

/-- Python `s.capitalize()`: upper-case the first character and lower-case
the rest (empty string maps to itself). -/
def pyCapitalize (s : String) : String :=
  match s.data with
  | [] => ""
  | c :: cs => ⟨c.toUpper :: cs.map Char.toLower⟩

/-- Python `s[:n]`: the first `n` characters. -/
def pyTruncate (s : String) (n : Nat) : String := ⟨s.data.take n⟩

/-- Python `needle in hay` on strings: substring containment. -/
def pyInStr (needle hay : String) : Bool :=
  hay.data.tails.any (fun t => needle.data.isPrefixOf t)

/-- Embeds `clean_description` (src/scraper.py lines 82-104). The whole Claude
API interaction inside the `try` block — client construction, prompt assembly,
`messages.create` and `message.content[0].text` — is abstracted as `svc`, a
function from the three data inputs (title, raw description, category) to
either the reply text or an exception. On success the code returns the reply
`.strip()`ped; on any exception it falls back to the raw description truncated
to 200 characters, or the fixed placeholder when the raw description is empty
(Python truthiness of the string). -/
def clean_description (svc : String → String → String → Except Unit String)
    (title raw_description category : String) : String :=
  match svc title raw_description category with
  | Except.ok text => pyStrip text
  | Except.error _ =>
    if raw_description = "" then "No description available."
    else pyTruncate raw_description 200

/-- Embeds `build_resource` (lines 110-120). `today` stands for the value of
`datetime.today().strftime("%Y-%m-%d")`, the run's current date; the Python
defaults `level="All Levels"` and `free=True` are supplied explicitly at each
call site, exactly as the source's keyword arguments resolve. -/
def build_resource (title url description platform category level : String)
    (free : Bool) (today : String) : Resource :=
  ⟨title, url, description, platform, category, level, free, today⟩

/-- `CONFIG["max_results_per_source"]` (line 49). -/
def max_results_per_source : Nat := 30

/-- An entry of one of the curated static tables. `level` and
`platform_override` are `none` exactly where the Python dict literal has no
such key. -/
structure CuratedItem where
  title : String
  url : String
  description : String
  level : Option String
  platform_override : Option String
  deriving DecidableEq, Repr

def YOUTUBE_CURATED : List (String × List CuratedItem) := [
  ("Programming & Computer Science", [
    ⟨"TypeScript Training [2026]", "https://www.youtube.com/playlist?list=PLEiEAq2VkUULrJCzLdveKPBEzYC5qPJud", "Comprehensive TypeScript training covering types, interfaces, generics, and modern TypeScript development practices.", some "All Levels", none⟩,
    ⟨"Go Programming Language Tutorial [2026]", "https://www.youtube.com/playlist?list=PLEiEAq2VkUUIxgVSjwbOfWmnGrVWwjYlI", "Full Go programming course covering syntax, concurrency, web APIs, and building production-ready Go applications.", some "All Levels", none⟩,
    ⟨"Kotlin [2026]", "https://www.youtube.com/playlist?list=PLEiEAq2VkUUJ3rGmomS8HNxG4GsR3O68e", "Intermediate Kotlin programming course covering Android development, coroutines, and modern Kotlin features.", some "Intermediate", none⟩,
    ⟨"Introduction to ASP.NET [2026]", "https://www.youtube.com/playlist?list=PLEiEAq2VkUUJ5JWyHUtFXhX6mfQwiVaBs", "Introduction to ASP.NET web development covering MVC, APIs, authentication, and deploying .NET web applications.", some "All Levels", none⟩,
    ⟨"PHP Training Videos [2026]", "https://www.youtube.com/playlist?list=PLEiEAq2VkUUIjP-QLfvICa1TvqTLFvn1b", "PHP programming course covering core syntax, OOP, database integration, and building dynamic web applications.", some "All Levels", none⟩,
    ⟨"SQL Training Playlist [2026]", "https://www.youtube.com/playlist?list=PLEiEAq2VkUUKL3yPbn8yWnatjUg0P0I-Z", "Complete SQL training covering queries, joins, subqueries, stored procedures, and database design fundamentals.", some "All Levels", none⟩]),
  ("Data Science AI", [
    ⟨"TensorFlow Introduction Course [2026]", "https://www.youtube.com/playlist?list=PLEiEAq2VkUUK1Gw2Cj7-M0mhk0oLE6jzk", "Hands-on TensorFlow course covering neural networks, model training, deep learning pipelines, and deployment.", some "All Levels", none⟩,
    ⟨"Business Analytics [2026]", "https://www.youtube.com/playlist?list=PLEiEAq2VkUUIhyGLSiEzotDRF0hc1xbiN", "Business analytics course covering data-driven decision making, statistical analysis, visualization, and BI tools.", some "All Levels", none⟩]),
  ("Web Development", [
    ⟨"Introduction to Google Cloud Platform [2026]", "https://www.youtube.com/playlist?list=PLEiEAq2VkUULvVL0SoVmiS1kTiC87W_AG", "Beginner-friendly introduction to Google Cloud Platform covering core services, storage, compute, and deployment.", some "Beginner", none⟩,
    ⟨"Microsoft Azure Full Course [2026]", "https://www.youtube.com/playlist?list=PLEiEAq2VkUUJ-lLsBkEt1CckzIagYNq9S", "Comprehensive Azure cloud course covering virtual machines, storage, networking, security, and Azure DevOps.", some "All Levels", none⟩]),
  ("Project Management / Agile / Career Skills", [
    ⟨"Product Management Training Playlist [2026]", "https://www.youtube.com/playlist?list=PLEiEAq2VkUUIE8vrshd0pKiYl7PKpINPe", "Complete product management training covering roadmapping, user stories, stakeholder management, and Agile PM practices.", some "All Levels", none⟩,
    ⟨"Interview Questions & Soft Skills Basics Course [2026]", "https://www.youtube.com/playlist?list=PLEiEAq2VkUUKpolUs6VxIBzWDC_FzbFdH", "Career development course covering interview preparation, soft skills, communication, and professional workplace skills.", some "All Levels", none⟩])
]

def MITOCW_CURATED : List (String × List CuratedItem) := [
  ("Programming & Computer Science", [
    ⟨"Introduction to Computer Science and Programming in Python", "https://ocw.mit.edu/courses/6-0001-introduction-to-computer-science-and-programming-in-python-fall-2016/", "MIT's foundational Python course covering computational thinking, algorithms, and problem solving. No prior programming experience needed.", none, none⟩,
    ⟨"Introduction to Computational Thinking and Data Science", "https://ocw.mit.edu/courses/6-0002-introduction-to-computational-thinking-and-data-science-fall-2016/", "Continuation of MIT's intro CS sequence covering Python for optimization, simulation, and statistical thinking.", none, none⟩,
    ⟨"A Gentle Introduction to Programming Using Python", "https://ocw.mit.edu/courses/6-189-a-gentle-introduction-to-programming-using-python-january-iap-2011/", "MIT IAP course introducing Python programming concepts to beginners with hands-on problem sets.", none, none⟩]),
  ("Data Science AI", [
    ⟨"Introduction to Machine Learning", "https://ocw.mit.edu/courses/6-867-machine-learning-fall-2006/", "MIT's core machine learning course covering regression, classification, neural networks, and unsupervised methods.", none, none⟩,
    ⟨"Probabilistic Systems Analysis and Applied Probability", "https://ocw.mit.edu/courses/6-041-probabilistic-systems-analysis-and-applied-probability-fall-2010/", "Rigorous MIT course on probability theory, random variables, and statistical inference — essential for data science.", none, none⟩,
    ⟨"Statistics for Applications", "https://ocw.mit.edu/courses/18-650-statistics-for-applications-fall-2016/", "MIT statistics course covering estimation, hypothesis testing, regression, and machine learning fundamentals.", none, none⟩]),
  ("Web Development", [
    ⟨"User Interface Design and Implementation", "https://ocw.mit.edu/courses/6-831-user-interface-design-and-implementation-spring-2011/", "MIT course on UI design principles, usability, and front-end implementation for interactive web applications.", none, none⟩]),
  ("IT / Cybersecurity", [
    ⟨"Computer Systems Security", "https://ocw.mit.edu/courses/6-858-computer-systems-security-fall-2014/", "MIT's in-depth computer security course covering network security, cryptography, software vulnerabilities, and defenses.", none, none⟩,
    ⟨"Network and Computer Security", "https://ocw.mit.edu/courses/6-857-network-and-computer-security-spring-2014/", "MIT course on cryptographic protocols, authentication, network security, and applied security engineering.", none, none⟩]),
  ("UX Design", [
    ⟨"User Interface Design and Implementation", "https://ocw.mit.edu/courses/6-831-user-interface-design-and-implementation-spring-2011/", "MIT course on UI/UX principles, usability evaluation, and hands-on interface implementation.", none, none⟩]),
  ("Project Management / Agile / Career Skills", [
    ⟨"System and Project Management", "https://ocw.mit.edu/courses/1-040-project-management-spring-2009/", "MIT engineering project management course covering planning, scheduling, risk management, and team coordination.", none, none⟩,
    ⟨"Engineering Risk-Benefit Analysis", "https://ocw.mit.edu/courses/esd-72-engineering-risk-benefit-analysis-spring-2007/", "MIT course on decision-making under uncertainty, risk frameworks, and systems analysis for technology projects.", none, none⟩])
]

def FCC_CURATED : List (String × List CuratedItem) := [
  ("Programming & Computer Science", [
    ⟨"Scientific Computing with Python", "https://www.freecodecamp.org/learn/python-v9/", "freeCodeCamp's free Python certification covering variables, functions, data structures, OOP, and algorithms through project-based learning.", none, none⟩,
    ⟨"Relational Databases", "https://www.freecodecamp.org/learn/relational-databases-v9/", "Learn PostgreSQL, Bash scripting, and relational database design through interactive projects in a Linux environment.", none, none⟩]),
  ("Data Science AI", [
    ⟨"Data Analysis with Python", "https://www.freecodecamp.org/learn/data-analysis-with-python/", "freeCodeCamp's free data analysis certification covering NumPy, Pandas, Matplotlib, and data visualization techniques.", none, none⟩,
    ⟨"Machine Learning with Python", "https://www.freecodecamp.org/learn/machine-learning-with-python/", "freeCodeCamp's free machine learning certification covering TensorFlow, neural networks, NLP, and reinforcement learning.", none, none⟩]),
  ("Web Development", [
    ⟨"Responsive Web Design", "https://www.freecodecamp.org/learn/responsive-web-design-v9/", "freeCodeCamp's free web design certification covering HTML, CSS, Flexbox, Grid, and accessibility best practices.", none, none⟩,
    ⟨"JavaScript Algorithms and Data Structures", "https://www.freecodecamp.org/learn/javascript-v9/", "freeCodeCamp's free JavaScript certification covering ES6, OOP, functional programming, and algorithm challenges.", none, none⟩,
    ⟨"Front End Development Libraries", "https://www.freecodecamp.org/learn/front-end-development-libraries-v9/", "Learn Bootstrap, jQuery, Sass, React, and Redux through freeCodeCamp's free front-end certification program.", none, none⟩,
    ⟨"Back End Development and APIs", "https://www.freecodecamp.org/learn/back-end-development-and-apis-v9/", "freeCodeCamp's free back-end certification covering Node.js, Express, MongoDB, and building REST APIs.", none, none⟩,
    ⟨"Full Stack Developer", "https://www.freecodecamp.org/learn/full-stack-developer-v9/", "freeCodeCamp's comprehensive full-stack certification covering front-end, back-end, databases, and deployment.", none, none⟩]),
  ("IT / Cybersecurity", [
    ⟨"Information Security", "https://www.freecodecamp.org/learn/information-security/", "freeCodeCamp's free information security certification covering HelmetJS, penetration testing, and secure application development.", none, none⟩,
    ⟨"Foundational C# with Microsoft", "https://www.freecodecamp.org/learn/foundational-c-sharp-with-microsoft/", "Microsoft-partnered freeCodeCamp course teaching foundational C# programming for secure software development.", none, none⟩]),
  ("UX Design", [
    ⟨"Responsive Web Design Certification", "https://www.freecodecamp.org/learn/responsive-web-design-v9/", "freeCodeCamp certification covering accessible, user-centered design with HTML and CSS. Includes real-world projects.", none, none⟩]),
  ("Project Management / Agile / Career Skills", [
    ⟨"Coding Interview Prep", "https://www.freecodecamp.org/learn/coding-interview-prep/", "freeCodeCamp's comprehensive interview preparation covering algorithms, data structures, and project-based challenges.", none, none⟩,
    ⟨"The Odin Project", "https://www.freecodecamp.org/learn/the-odin-project/", "Full-stack web development curriculum covering project planning, Git workflow, and agile development practices.", none, none⟩])
]

def AWS_CURATED : List (String × List CuratedItem) := [
  ("Programming & Computer Science", [
    ⟨"AWS Cloud Practitioner Essentials", "https://skillbuilder.aws/learn/94T2BEN85A/aws-cloud-practitioner-essentials/8D79F3AVR7", "Introduction to AWS cloud concepts, core services, and global infrastructure. The starting point for any AWS learning journey.", some "Beginner", none⟩,
    ⟨"AWS Technical Essentials", "https://skillbuilder.aws/learn/K8C2FNZM6X/aws-technical-essentials/N7Q3SXQCDY", "Foundational AWS course covering core services, infrastructure, and the basics of cloud-based application development.", some "Beginner", none⟩,
    ⟨"Introduction to AWS Solutions", "https://skillbuilder.aws/learn/FH7PU4852Z/introduction-to-aws-solutions/RGZ7RBAJD9", "Overview of AWS solution categories and how cloud services can be combined to solve real-world technical challenges.", some "Beginner", none⟩,
    ⟨"Building Games with AWS Services", "https://skillbuilder.aws/learn/72B872B4H2/building-games-with-aws-services/4GUU1DZK1G", "Hands-on introduction to building games using AWS cloud services including compute, storage, and multiplayer backends.", some "Beginner", none⟩,
    ⟨"Getting Started with DevOps on AWS", "https://skillbuilder.aws/learn/R4B13K95YQ/getting-started-with-devops-on-aws/38NHHYRV1R", "Introduction to DevOps practices on AWS covering CI/CD pipelines, automation, infrastructure as code, and deployment strategies.", some "Beginner", none⟩,
    ⟨"Developer Learning Plan (includes Labs)", "https://skillbuilder.aws/learning-plan/2MB11RS27E/developer-learning-plan-includes-labs/BT3ARXRZY3", "Comprehensive developer learning path covering AWS SDKs, serverless, APIs, and hands-on labs for building cloud applications.", some "Advanced", none⟩,
    ⟨"Deploying Serverless Applications", "https://skillbuilder.aws/learn/M531VCW415/deploying-serverless-applications/SMY21G7FYZ", "Learn to build and deploy serverless applications using AWS Lambda, API Gateway, and related services.", some "Intermediate", none⟩,
    ⟨"AWS Solutions Architect - Fundamentals of Architecting on AWS", "https://skillbuilder.aws/learn/ACYHAC5Q6K/aws-solutions-architect--fundamentals-of-architecting-on-aws/HNFECXKH8Q", "Foundational architecting concepts for designing scalable, reliable, and cost-effective solutions on AWS.", some "Intermediate", none⟩]),
  ("Data Science AI", [
    ⟨"Introduction to Amazon SageMaker", "https://skillbuilder.aws/learn/E1TZFJG8AG/introduction-to-amazon-sagemaker/GK2ESQYCR3", "Beginner introduction to Amazon SageMaker for building, training, and deploying machine learning models on AWS.", some "Beginner", none⟩,
    ⟨"AWS Foundations: Machine Learning Basics", "https://skillbuilder.aws/learn/5F9VWPE59T/aws-foundations-machine-learning-basics/3MPXBM59YU", "Core machine learning concepts including supervised learning, model evaluation, and ML pipelines using AWS services.", some "Beginner", none⟩,
    ⟨"Machine Learning - Learning Plan", "https://skillbuilder.aws/learning-plan/MVQZ8QE1WJ/machine-learning-learning-plan/2PW43AVTYR", "Structured AWS learning path covering the full machine learning workflow from data preparation to model deployment.", some "Beginner", none⟩,
    ⟨"Developing Generative Artificial Intelligence Solutions", "https://skillbuilder.aws/learn/PWJCMNXWHT/developing-generative-artificial-intelligence-solutions/JFB95SXNPF", "Build generative AI applications on AWS using foundation models, Amazon Bedrock, and responsible AI practices.", some "Beginner", none⟩,
    ⟨"Responsible AI Practices on AWS", "https://skillbuilder.aws/learning-plan/DE7RY2BTMR/responsible-ai-practices-on-aws/7F3XMDWRBM", "Advanced course on building ethical, fair, and accountable AI systems using AWS tools and governance frameworks.", some "Advanced", none⟩,
    ⟨"Planning a Generative AI Project", "https://skillbuilder.aws/learn/HU1FQRGDDZ/planning-a-generative-ai-project/SYR3SCPSHC", "Learn how to scope, plan, and evaluate generative AI projects including use case selection and risk assessment.", some "Beginner", none⟩,
    ⟨"Making Better Decisions with Data for Small Business Owners", "https://skillbuilder.aws/learn/AV6CRJ8AP1/making-better-decisions-with-data-for-small-business-owners/RAXPG2AXAC", "Practical data-driven decision making for small business owners using AWS analytics and business intelligence tools.", some "Beginner", none⟩,
    ⟨"Data Engineering on AWS - Foundations", "https://skillbuilder.aws/learn/6BP61KB1FJ/data-engineering-on-aws--foundations/KXCN4PJD9Y", "Foundational data engineering concepts covering AWS data pipelines, storage, transformation, and analytics services.", some "Beginner", none⟩,
    ⟨"Data Analytics Learning Plan", "https://skillbuilder.aws/learning-plan/J38YWQY59M/data-analytics-learning-plan-includes-labs/Z2QZR9T77Q", "Comprehensive learning path for AWS data analytics covering data lakes, warehousing, visualization, and hands-on labs.", some "Beginner", none⟩]),
  ("Web Development", [
    ⟨"AWS Cloud Quest: Cloud Practitioner", "https://skillbuilder.aws/learn/FU5WCYVGKY/aws-cloud-quest-cloud-practitioner/JF9TKU68GT", "Gamified, hands-on cloud learning game for building and deploying cloud applications and web services on AWS.", some "Beginner", none⟩,
    ⟨"AWS Well-Architected Foundations", "https://skillbuilder.aws/learn/U89MJTNSM8/aws-wellarchitected-foundations/RCY5NFM8R9", "Best practices for designing reliable, secure, and cost-effective architectures using the AWS Well-Architected Framework.", some "Intermediate", none⟩,
    ⟨"Building Your Agentic Applications the Well-Architected Way", "https://skillbuilder.aws/learn/R44Y8PRVRW/building-your-agentic-applications-the-wellarchitected-way/8W5HD7KWJ4", "Design and build AI agent applications on AWS following Well-Architected best practices for reliability and security.", some "Intermediate", none⟩,
    ⟨"Cloud for Small Business Owners", "https://skillbuilder.aws/learn/EMN6QJSA7Q/cloud-for-small-business-owners/7PXBKPD8RJ", "Beginner-friendly introduction to cloud computing benefits, AWS services, and how to get started as a small business.", some "Beginner", none⟩]),
  ("IT / Cybersecurity", [
    ⟨"AWS Security Fundamentals", "https://skillbuilder.aws/learn/S2N5PM41ZK/aws-security-fundamentals-second-edition/E71QQGTCRZ", "Core AWS security concepts covering IAM, data encryption, network security, monitoring, and compliance frameworks.", some "Intermediate", none⟩,
    ⟨"Introduction to AWS Identity and Access Management (IAM)", "https://skillbuilder.aws/learn/M1QWQ1MURQ/introduction-to-aws-identity-and-access-management-iam/W4W2NQF2AR", "Beginner introduction to AWS IAM for controlling access to services and resources, managing policies, roles, and permissions.", some "Beginner", none⟩,
    ⟨"AWS Security - Encryption Fundamentals", "https://skillbuilder.aws/learn/F3VJ5VSAK6/aws-security--encryption-fundamentals/CZREZ5H8QM", "Introduction to encryption concepts and AWS encryption services for protecting data at rest and in transit.", some "Beginner", none⟩,
    ⟨"AWS Security Best Practices: Computing", "https://skillbuilder.aws/learn/MSP6X2ZRWV/aws-security-best-practices-computing/NYUMMV4ZCC", "Security best practices for AWS compute services including EC2, Lambda, and containers to protect cloud workloads.", some "Intermediate", none⟩,
    ⟨"AWS Security: Securing Generative AI on AWS", "https://skillbuilder.aws/learn/ES7A9MKPBZ/aws-security-securing-generative-ai-on-aws/DTAJFXQSUY", "Security considerations and best practices for building and deploying generative AI applications responsibly on AWS.", some "Intermediate", none⟩,
    ⟨"Cybersecurity for Small Business Owners", "https://skillbuilder.aws/learn/WMRGRX7FM1/cybersecurity-for-small-business-owners/AMZFB5K7RX", "Practical cybersecurity fundamentals for small business owners covering threats, protections, and AWS security tools.", some "Beginner", none⟩]),
  ("Project Management / Agile / Career Skills", [
    ⟨"Introduction to the AWS Cloud Adoption Framework (CAF)", "https://skillbuilder.aws/learn/QBZU3QPADC/introduction-to-the-aws-cloud-adoption-framework-caf/7GFPVKU3F8", "Strategic framework for planning and executing cloud adoption projects across business, people, governance, and technology.", some "Beginner", none⟩])
]

def EDX_CURATED : List (String × List CuratedItem) := [
  ("Programming & Computer Science", [
    ⟨"Programming for Everybody (Getting Started with Python)", "https://www.edx.org/learn/python/the-university-of-michigan-programming-for-everybody-getting-started-with-python", "University of Michigan's beginner Python course covering variables, loops, functions, and basic programming. Free to audit.", some "Beginner", none⟩,
    ⟨"Python Data Structures — University of Michigan", "https://www.edx.org/learn/python/the-university-of-michigan-python-data-structures", "The second Python for Everybody course covering strings, lists, dictionaries, and tuples. Free to audit.", some "Beginner", none⟩,
    ⟨"CS50's Introduction to Computer Science", "https://www.edx.org/learn/computer-science/harvard-university-cs50-s-introduction-to-computer-science", "Harvard's legendary intro CS course covering algorithms, data structures, web development, and more. Free to audit.", some "Beginner", none⟩,
    ⟨"CS50's Introduction to Programming with Python", "https://www.edx.org/learn/python/harvard-university-cs50-s-introduction-to-programming-with-python", "Harvard's Python-focused CS50 course covering functions, libraries, file I/O, and object-oriented programming. Free to audit.", some "Beginner", none⟩]),
  ("Data Science AI", [
    ⟨"CS50's Introduction to Artificial Intelligence with Python", "https://www.edx.org/learn/artificial-intelligence/harvard-university-cs50-s-introduction-to-artificial-intelligence-with-python", "Harvard's AI course covering search algorithms, machine learning, neural networks, and NLP using Python. Free to audit.", some "Intermediate", none⟩]),
  ("Web Development", [
    ⟨"CS50's Web Programming with Python and JavaScript", "https://www.edx.org/learn/web-development/harvard-university-cs50-s-web-programming-with-python-and-javascript", "Harvard's full-stack web development course covering Django, JavaScript, React, Git, and databases. Free to audit.", some "Intermediate", none⟩,
    ⟨"IBM: Developing Front End Apps with React", "https://www.edx.org/learn/react-native/ibm-developing-front-end-apps-with-react", "IBM's hands-on React course covering components, state management, hooks, and building interactive web applications. Free to audit.", some "Intermediate", none⟩]),
  ("IT / Cybersecurity", [
    ⟨"CS50's Introduction to Cybersecurity", "https://www.edx.org/learn/cybersecurity/harvard-university-cs50-s-introduction-to-cybersecurity", "Harvard's accessible cybersecurity course for technical and non-technical learners covering threats, defense, and best practices. Free to audit.", some "Beginner", none⟩]),
  ("Project Management / Agile / Career Skills", [
    ])
]

def STANFORD_CURATED : List (String × List CuratedItem) := [
  ("Programming & Computer Science", [
    ⟨"Code in Place — Stanford", "https://codeinplace.stanford.edu/", "Stanford's free introductory Python programming course taught by CS106A instructors. Beginner-friendly.", none, none⟩,
    ⟨"Computer Science 101 — Stanford", "https://www.edx.org/learn/computer-science/stanford-university-computer-science-101", "Stanford's introductory computer science course covering programming fundamentals and computational thinking. Free to audit on edX.", none, some "edX"⟩]),
  ("Data Science AI", [
    ⟨"Machine Learning — CS229", "https://see.stanford.edu/course/cs229", "Stanford's renowned machine learning course covering supervised learning, unsupervised learning, neural networks, and AI foundations.", none, none⟩,
    ⟨"Statistical Learning with R", "https://www.edx.org/learn/statistics/stanford-university-statistical-learning", "Comprehensive introduction to statistical learning and data mining with R, based on the textbook ISLR. Free to audit.", some "Beginner", some "edX"⟩]),
  ("Web Development", [
    ⟨"Databases: Relational Databases and SQL", "https://www.edx.org/learn/relational-databases/stanford-university-databases-relational-databases-and-sql", "Stanford's self-paced SQL and relational databases course. Free to audit on edX — essential for backend web development.", none, some "edX"⟩,
    ⟨"Generative AI: Technology, Business and Society", "https://online.stanford.edu/courses/xfm100-generative-ai-technology-business-and-society-program-preview", "Stanford's program exploring generative AI's impact on technology, business, and society. Covers practical applications and implications.", none, none⟩]),
  ("IT / Cybersecurity", [
    ⟨"Introduction to Internet of Things", "https://online.stanford.edu/courses/xee100-introduction-internet-things", "Stanford's beginner-friendly introduction to IoT devices, sensors, connectivity, and embedded systems design. Free.", some "Beginner", none⟩]),
  ("Project Management / Agile / Career Skills", [
    ⟨"Generative AI: Technology, Business and Society", "https://online.stanford.edu/courses/xfm100-generative-ai-technology-business-and-society-program-preview", "Stanford's program on managing AI initiatives across technology and business contexts, covering strategy and governance.", none, none⟩])
]

def IBM_CURATED : List (String × List CuratedItem) := [
  ("Programming & Computer Science", [
    ⟨"Information Technology Fundamentals", "https://students.yourlearning.ibm.com/activity/PLAN-189E4B1AF551?channelId=CNL_LCB_1669759135880&utm_source=skillsbuild.org", "Learn the history of computing and essential concepts about computer parts, network connections, hardware, software, security, and troubleshooting, with hands-on practice.", some "Beginner", none⟩,
    ⟨"Introduction to IT", "https://students.yourlearning.ibm.com/activity/URL-A50A91D08ADC?channelId=CNL_LCB_1669759135880&utm_source=skillsbuild.org", "Beginner overview of the growing IT industry covering foundational concepts as companies become increasingly technology-dependent.", some "Beginner", none⟩,
    ⟨"Explore Emerging Tech", "https://students.yourlearning.ibm.com/activity/PLAN-AB0C4887AB43", "Introduction to five key emerging technologies transforming industries and creating new career opportunities. No prior tech experience required.", some "Beginner", none⟩,
    ⟨"Quantum Computing", "https://students.yourlearning.ibm.com/channel/CNL_LCB_1596832013328?utm_source=skillsbuild.org", "Explore how quantum computers use principles of quantum physics rather than traditional logic to solve complex problems in seconds.", some "Intermediate", none⟩]),
  ("Data Science AI", [
    ⟨"AI Foundations", "https://students.yourlearning.ibm.com/activity/PLAN-B2125F145F0E?utm_source=skillsbuild.org", "Foundational AI course created by ISTE and IBM covering AI concepts, applications, and ethics. Designed for high school students and career beginners.", some "Beginner", none⟩,
    ⟨"Artificial Intelligence Fundamentals", "https://students.yourlearning.ibm.com/activity/PLAN-CC702B39D429?utm_source=skillsbuild.org", "Explore AI history and how it is changing the world. Visualize yourself in an AI career while learning core machine learning and AI concepts.", some "All Levels", none⟩,
    ⟨"Build Your Own Chatbot", "https://students.yourlearning.ibm.com/activity/SN-COURSE-V1:IBMDEVELOPERSKILLSNETWORK+CB0101EN+V1?utm_source=skillsbuild.org", "Practical introduction to planning, building, and deploying your first AI-powered customer support chatbot using IBM tools.", some "All Levels", none⟩,
    ⟨"Data Fundamentals", "https://students.yourlearning.ibm.com/activity/PLAN-0EC2BCEA3C39?utm_source=skillsbuild.org", "Learn data science concepts and methods with hands-on practice cleaning, refining, and visualizing data to discover meaningful insights.", some "Beginner", none⟩,
    ⟨"Data Science Foundations", "https://students.yourlearning.ibm.com/activity/PLAN-F0DF852C4003?utm_source=skillsbuild.org", "Comprehensive data science path covering analysis, visualization, and machine learning concepts through IBM's free learning platform.", some "All Levels", none⟩]),
  ("Web Development", [
    ⟨"Web Development Fundamentals", "https://students.yourlearning.ibm.com/activity/PLAN-43A030B97485?utm_source=skillsbuild.org", "Learn the languages, tools, and processes used to build websites with hands-on practice covering HTML, CSS, JavaScript, and modern frameworks.", some "All Levels", none⟩,
    ⟨"Cloud Computing Fundamentals", "https://students.yourlearning.ibm.com/activity/PLAN-58FA14F64C9B?utm_source=skillsbuild.org", "Learn cloud computing basics including service models, deployment models, and the many ways businesses benefit from cloud technology.", some "All Levels", none⟩,
    ⟨"Introduction to Cloud", "https://students.yourlearning.ibm.com/activity/PLAN-4EB23B51588C?utm_source=skillsbuild.org", "Core cloud computing concepts from both business and practitioner perspectives. Foundational knowledge for understanding modern cloud infrastructure.", some "Beginner", none⟩,
    ⟨"IBM Cloud Essentials", "https://students.yourlearning.ibm.com/activity/PLAN-0F5CA76EE206?utm_source=skillsbuild.org", "Introduction to IBM Cloud offerings and services — the most open and secure public cloud for developers and enterprises.", some "All Levels", none⟩]),
  ("UX Design", [
    ⟨"User Experience Design Fundamentals", "https://students.yourlearning.ibm.com/activity/PLAN-44E67AF54225?focuslmsId=CREDLY-ae2e453d-5311-41a0-be95-b217e0c4670f&utm_source=skillsbuild.org", "Learn UX design concepts and the full design process for crafting digital products that are intuitive, user-friendly, and visually appealing.", some "All Levels", none⟩]),
  ("IT / Cybersecurity", [
    ⟨"Cybersecurity Fundamentals", "https://students.yourlearning.ibm.com/activity/PLAN-805005E992EA?utm_source=skillsbuild.org", "Introduction to cybersecurity covering cyberattackers, their tactics, social engineering, and high-profile case studies from offense and defense perspectives.", some "All Levels", none⟩]),
  ("Project Management / Agile / Career Skills", [
    ⟨"Agile Explorer", "https://students.yourlearning.ibm.com/activity/PLAN-0BD5AD484E32?utm_source=skillsbuild.org", "Learn Agile values, principles, and practices that help teams become more innovative and adaptive instead of using linear, inflexible work methods.", some "All Levels", none⟩,
    ⟨"Design Thinking - Getting Started", "https://students.yourlearning.ibm.com/channel/CNL_LCB_1565755450471?utm_source=skillsbuild.org", "IBM's design thinking framework used by businesses and startups worldwide to solve problems and drive innovation. Applicable to any career path.", some "All Levels", none⟩,
    ⟨"Customer Engagement Fundamentals", "https://students.yourlearning.ibm.com/activity/PLAN-F77885B0DEE9", "Covers IT customer service and support — one of the highest-demand job areas. Learn skills for customer engagement and support agent roles.", some "All Levels", none⟩,
    ⟨"Workplace Skills - Helping You Succeed at Work", "https://students.yourlearning.ibm.com/channel/CNL_LCB_1617287332624?utm_source=skillsbuild.org", "Build the many skills needed to find a job and succeed at work, from handling challenges gracefully to seizing career opportunities.", some "All Levels", none⟩,
    ⟨"Internships - Get a Head Start on Your Career", "https://students.yourlearning.ibm.com/channel/CNL_LCB_1614191131555?utm_source=skillsbuild.org", "Practical guidance on internships for students covering career exploration, skill development, and professional work experience.", some "Beginner", none⟩,
    ⟨"Lifelong Professional Skills", "https://students.yourlearning.ibm.com/activity/PLAN-EBB88B2618A4?utm_source=skillsbuild.org", "Core capabilities for personal and team success in today's workplace, helping professionals grow as well-rounded, confident contributors.", some "Beginner", none⟩])
]

def GOOGLE_CURATED : List (String × List CuratedItem) := [
  ("Data Science AI", [
    ⟨"Google Introduction to Machine Learning", "https://developers.google.com/machine-learning/intro-to-ml", "Google's beginner introduction to machine learning concepts, supervised learning, and how ML models are trained. Completely free.", some "Beginner", none⟩,
    ⟨"Machine Learning Problem Framing", "https://developers.google.com/machine-learning/problem-framing", "Google's guide to framing real-world problems as machine learning tasks, including defining goals and evaluating feasibility.", some "All Levels", none⟩,
    ⟨"Google Machine Learning Crash Course", "https://developers.google.com/machine-learning/crash-course", "Google's fast-paced, practical ML course covering linear regression, neural networks, training, and evaluation with TensorFlow. Completely free.", some "Intermediate", none⟩,
    ⟨"Managing Machine Learning Projects", "https://developers.google.com/machine-learning/managing-ml-projects", "Google's guide to planning, scoping, and managing machine learning projects from problem definition to deployment.", some "All Levels", none⟩,
    ⟨"Decision Forests", "https://developers.google.com/machine-learning/decision-forests", "Google's advanced course on decision tree algorithms, random forests, and gradient boosted trees for classification and regression.", some "Advanced", none⟩,
    ⟨"Recommendation Systems", "https://developers.google.com/machine-learning/recommendation", "Google's advanced guide to building recommendation systems including collaborative filtering, content-based, and deep neural network approaches.", some "Advanced", none⟩,
    ⟨"Clustering", "https://developers.google.com/machine-learning/clustering", "Google's advanced course on unsupervised clustering algorithms including k-means, hierarchical clustering, and quality metrics.", some "Advanced", none⟩,
    ⟨"Generative Adversarial Networks (GANs)", "https://developers.google.com/machine-learning/gan", "Google's advanced course on GANs covering generator and discriminator networks, training challenges, and real-world applications.", some "Advanced", none⟩]),
  ("Project Management / Agile / Career Skills", [
    ⟨"Get Started Using Google Analytics", "https://skillshop.docebosaas.com/learn/courses/8108/get-started-using-google-analytics", "Google Skillshop's beginner course on setting up and navigating Google Analytics 4, understanding properties, and basic reporting.", some "Beginner", none⟩,
    ⟨"Manage GA Data and Learn to Read Reports", "https://skillshop.docebosaas.com/learn/courses/7538/Use%20Google%20Analytics%20for%20Your%20Business", "Google Skillshop course on using Google Analytics for business decisions, reading key reports, and understanding audience data.", some "Beginner", none⟩,
    ⟨"Dive Deeper Into GA4 Data and Reports", "https://skillshop.docebosaas.com/learn/courses/18104/dive-deeper-into-ga4-data-and-reports", "Intermediate Google Analytics 4 course covering advanced reports, explorations, custom dimensions, and deeper data analysis.", some "Intermediate", none⟩,
    ⟨"Use GA with Other Tools and Data Sources", "https://skillshop.docebosaas.com/learn/courses/18105/go-further-with-advanced-features-in-google-analytics", "Advanced Google Analytics course covering integrations with Google Ads, BigQuery, and other data sources for cross-platform analysis.", some "Intermediate", none⟩,
    ⟨"Google Analytics Certification", "https://skillshop.docebosaas.com/learn/courses/14810/google-analytics-certification", "Google's official GA4 certification course and exam. Earn a free, shareable Google Analytics certification credential.", some "Intermediate", none⟩,
    ⟨"AI-Powered Performance Ads Certification", "https://skillshop.docebosaas.com/learn/courses/8510/ai-powered-performance-ads-certification", "Google Skillshop's certification course on using AI-powered tools in Google Ads campaigns for performance marketing.", some "Beginner", none⟩])
]

def HELSINKI_CURATED : List (String × List CuratedItem) := [
  ("Programming & Computer Science", [
    ⟨"Java Programming I & II", "https://java-programming.mooc.fi/", "University of Helsinki's comprehensive Java programming course covering OOP, algorithms, and data structures. Completely free, no registration required.", some "Beginner", none⟩,
    ⟨"Python Programming MOOC", "https://programming-26.mooc.fi/", "University of Helsinki's full Python course covering basics through advanced OOP, file handling, and data processing. Completely free and self-paced.", some "Beginner", none⟩,
    ⟨"Test-Driven Development", "https://tdd.mooc.fi/", "University of Helsinki's advanced course on TDD practices, clean code, and refactoring using modern software engineering techniques. Free.", some "Advanced", none⟩,
    ⟨"Applied Language Technology", "https://applied-language-technology.mooc.fi/html/index.html", "University of Helsinki's introduction to natural language processing and computational linguistics using Python. Free and self-paced.", some "Beginner", none⟩,
    ⟨"Hands-on Scientific Computing", "https://handsonscicomp.readthedocs.io/en/latest/", "University of Helsinki's practical guide to scientific computing covering Linux, Python, data tools, and HPC workflows. Free.", some "All Levels", none⟩,
    ⟨"Computing and Society", "https://courses.mooc.fi/org/uh-cs/courses/computing-and-society-an-introduction-2025-2026", "University of Helsinki's introduction to how computing shapes society, covering digital infrastructure, ethics, and technology's social impact. Free.", some "All Levels", none⟩]),
  ("Data Science AI", [
    ⟨"Introduction to AI", "https://course.elementsofai.com/", "University of Helsinki's globally popular introduction to AI concepts, applications, and limitations. No programming required. Free certificate available.", some "All Levels", none⟩,
    ⟨"Building AI", "https://buildingai.elementsofai.com/", "University of Helsinki's follow-up covering practical AI building techniques, Python basics, and machine learning methods. Free.", some "All Levels", none⟩,
    ⟨"Data Analysis with Python", "https://courses.mooc.fi/org/uh-cs/courses/data-analysis-with-python-2024-2025", "University of Helsinki course covering data analysis with NumPy, Pandas, and visualization libraries. Free and self-paced.", some "Intermediate", none⟩,
    ⟨"Big Data Platforms", "https://big-data-platforms-25.mooc.fi/", "University of Helsinki's advanced course on big data frameworks, cloud computing, and scalable data processing architectures. Free.", some "Advanced", none⟩,
    ⟨"AI in Society", "https://courses.mooc.fi/org/uh-cs/courses/ai-in-society", "University of Helsinki course exploring how AI affects society, policy, ethics, and everyday life. No technical background required. Free.", some "All Levels", none⟩,
    ⟨"Ethics of AI", "https://ethics-of-ai.mooc.fi/", "University of Helsinki's dedicated course on the ethical dimensions of AI including fairness, accountability, and societal implications. Free.", some "All Levels", none⟩]),
  ("Web Development", [
    ⟨"Full Stack Open", "https://fullstackopen.com/en/", "University of Helsinki's comprehensive modern web dev curriculum: React, Node.js, MongoDB, GraphQL, and TypeScript. Industry-standard, completely free.", some "Intermediate", none⟩]),
  ("IT / Cybersecurity", [
    ⟨"Cyber Security Base", "https://cybersecuritybase.mooc.fi/", "University of Helsinki's cybersecurity series covering web security, vulnerabilities, cryptography, and ethical hacking. Free, created with F-Secure.", some "All Levels", none⟩,
    ⟨"Introduction to the Internet of Things", "https://courses.mooc.fi/org/uh-cs/courses/introduction-to-the-internet-of-things-mooc-2025-2026", "University of Helsinki's beginner-friendly introduction to IoT devices, connectivity, sensors, and embedded systems. Free.", some "Beginner", none⟩,
    ⟨"Core 5G and Beyond", "https://courses.mooc.fi/org/uh-cs/courses/5g-mooc", "University of Helsinki course on 5G network architecture, standards, and next-generation wireless communication technologies. Free.", some "Intermediate", none⟩]),
  ("UX Design", [
    ⟨"Computing and Society", "https://courses.mooc.fi/org/uh-cs/courses/computing-and-society-an-introduction-2025-2026", "University of Helsinki course on how technology shapes human experience, digital ethics, and user-centered design thinking. Free.", some "All Levels", none⟩]),
  ("Project Management / Agile / Career Skills", [
    ⟨"DevOps with Docker", "https://devopswithdocker.com/", "University of Helsinki's hands-on Docker and containerization course covering deployment pipelines and orchestration. Free and self-paced.", some "Intermediate", none⟩,
    ⟨"DevOps with Kubernetes", "https://courses.mooc.fi/org/uh-cs/courses/devops-with-kubernetes", "University of Helsinki's intermediate course on Kubernetes orchestration, scaling, and managing containerized applications in production. Free.", some "Intermediate", none⟩])
]

def KHAN_CURATED : List (String × List CuratedItem) := [
  ("Programming & Computer Science", [
    ⟨"Intro to Computer Science - Python", "https://www.khanacademy.org/computing/intro-to-python-fundamentals", "Khan Academy's beginner Python course covering variables, functions, loops, and core programming fundamentals. Completely free.", some "Beginner", none⟩,
    ⟨"Computer Programming - JavaScript and the Web", "https://www.khanacademy.org/computing/computer-programming", "Interactive JavaScript and web programming course covering HTML, CSS, animations, and databases. Learn by doing in the browser.", some "All Levels", none⟩,
    ⟨"AP College Computer Science Principles", "https://www.khanacademy.org/computing/ap-computer-science-principles", "College-level computer science covering algorithms, the internet, data, and programming. Aligned to the AP CS Principles exam.", some "Beginner", none⟩,
    ⟨"Computer Science Theory", "https://www.khanacademy.org/computing/computer-science", "Advanced CS theory covering algorithms, cryptography, information theory, and the mathematical foundations of computer science.", some "Advanced", none⟩]),
  ("IT / Cybersecurity", [
    ⟨"Computers and the Internet", "https://www.khanacademy.org/computing/computers-and-internet", "Beginner-friendly introduction to how computers work, how the internet functions, and the basics of cybersecurity and digital citizenship.", some "Beginner", none⟩])
]

def SAYLOR_CURATED : List (String × List CuratedItem) := [
  ("Programming & Computer Science", [
    ⟨"CS101: Introduction to Computer Science I", "https://learn.saylor.org/course/view.php?id=1146", "Saylor Academy's introduction to programming fundamentals covering algorithms, problem solving, and core CS concepts. Free certificate.", some "Beginner", none⟩,
    ⟨"CS102: Introduction to Computer Science II", "https://learn.saylor.org/course/view.php?id=64", "Continuation of CS fundamentals covering object-oriented programming, data structures, and algorithm analysis. Free certificate.", some "Intermediate", none⟩,
    ⟨"CS105: Introduction to Python", "https://learn.saylor.org/course/view.php?id=439", "Saylor Academy's beginner Python programming course covering syntax, data types, control flow, and functions. Free certificate.", some "Beginner", none⟩,
    ⟨"CS107: C++ Programming", "https://learn.saylor.org/course/view.php?id=65", "Introduction to C++ programming covering variables, loops, functions, pointers, and object-oriented concepts. Free certificate.", some "Beginner", none⟩,
    ⟨"CS120: Bitcoin for Developers I", "https://learn.saylor.org/course/view.php?id=500", "Introduction to Bitcoin and blockchain development covering cryptographic foundations, transactions, and protocol fundamentals. Free certificate.", some "Beginner", none⟩,
    ⟨"CS201: Elementary Data Structures", "https://learn.saylor.org/course/view.php?id=1307", "Foundational data structures including arrays, linked lists, stacks, queues, trees, and basic algorithm complexity. Free certificate.", some "Beginner", none⟩,
    ⟨"CS202: Discrete Structures", "https://learn.saylor.org/course/view.php?id=67", "Mathematical foundations of computer science covering logic, sets, combinatorics, graphs, and proofs. Free certificate.", some "Beginner", none⟩,
    ⟨"CS301: Computer Architecture", "https://learn.saylor.org/course/view.php?id=71", "Deep dive into how computers work covering CPU design, memory hierarchy, instruction sets, and performance optimization. Free certificate.", some "Intermediate", none⟩,
    ⟨"PRDV401: Introduction to JavaScript I", "https://learn.saylor.org/course/view.php?id=502", "Beginner JavaScript course covering variables, functions, DOM manipulation, and basic web interactivity. Free certificate.", some "Beginner", none⟩,
    ⟨"PRDV402: Introduction to JavaScript II", "https://learn.saylor.org/course/view.php?id=750", "Continuation of JavaScript covering arrays, objects, error handling, and more advanced programming patterns. Free certificate.", some "Beginner", none⟩,
    ⟨"PRDV420: Introduction to R Programming", "https://learn.saylor.org/course/view.php?id=671", "Introduction to R programming for data analysis covering syntax, data frames, visualization, and statistical computing. Free certificate.", some "Intermediate", none⟩,
    ⟨"PHIL102: Introduction to Critical Thinking and Logic", "https://learn.saylor.org/course/view.php?id=1255", "Foundational course on logical reasoning, argument analysis, fallacies, and critical thinking skills essential for CS and beyond. Free certificate.", some "Beginner", none⟩]),
  ("Data Science AI", [
    ⟨"CS205: Building with Artificial Intelligence", "https://learn.saylor.org/course/view.php?id=777", "Intermediate course on building AI applications covering machine learning workflows, model selection, and practical AI implementation. Free certificate.", some "Intermediate", none⟩,
    ⟨"CS207: Fundamentals of Machine Learning", "https://learn.saylor.org/course/view.php?id=1267", "Beginner introduction to machine learning covering supervised and unsupervised learning, model evaluation, and core algorithms. Free certificate.", some "Beginner", none⟩,
    ⟨"CS250: Python for Data Science", "https://learn.saylor.org/course/view.php?id=504", "Intermediate course on using Python for data science covering NumPy, Pandas, data cleaning, and visualization. Free certificate.", some "Intermediate", none⟩,
    ⟨"BUS204: Business Statistics", "https://learn.saylor.org/course/view.php?id=1247", "Introduction to business statistics covering descriptive statistics, probability, hypothesis testing, and regression analysis. Free certificate.", some "Beginner", none⟩,
    ⟨"BUS250: Introduction to Business Intelligence and Analytics", "https://learn.saylor.org/course/view.php?id=869", "Beginner course covering BI tools, data warehousing, dashboards, and using analytics for business decision making. Free certificate.", some "Beginner", none⟩,
    ⟨"BUS607: Data-Driven Decision-Making", "https://learn.saylor.org/course/view.php?id=737", "Advanced course on applying data analytics to strategic business decisions, including frameworks and case studies. Free certificate.", some "Advanced", none⟩,
    ⟨"BUS610: Advanced Business Intelligence and Analytics", "https://learn.saylor.org/course/view.php?id=741", "Advanced BI course covering data mining, predictive analytics, and enterprise-level analytics strategy. Free certificate.", some "Advanced", none⟩,
    ⟨"BUS611: Data Management", "https://learn.saylor.org/course/view.php?id=725", "Advanced course on data governance, database management, data quality, and enterprise data strategy. Free certificate.", some "Advanced", none⟩,
    ⟨"BUS612: Data-Driven Communications", "https://learn.saylor.org/course/view.php?id=759", "Advanced course on communicating data insights effectively through storytelling, visualization, and presentation strategies. Free certificate.", some "Advanced", none⟩,
    ⟨"PRDV200: Communicating with Data", "https://learn.saylor.org/course/view.php?id=868", "Beginner course on presenting data clearly and effectively using charts, visuals, and data storytelling techniques. Free certificate.", some "Beginner", none⟩,
    ⟨"PRDV430: AI for Business Applications", "https://learn.saylor.org/course/view.php?id=1254", "Intermediate course on applying AI tools to business workflows, automation, and decision support. Free certificate.", some "Intermediate", none⟩,
    ⟨"PRDV433: Enhancing Spreadsheets with Generative AI", "https://learn.saylor.org/course/view.php?id=1312", "Beginner course on using generative AI tools to enhance spreadsheet productivity, automate tasks, and analyze data. Free certificate.", some "Beginner", none⟩]),
  ("IT / Cybersecurity", [
    ⟨"CS260: Introduction to Cryptography and Network Security", "https://learn.saylor.org/course/view.php?id=805", "Intermediate course covering cryptographic algorithms, network security protocols, authentication, and practical security applications. Free certificate.", some "Intermediate", none⟩,
    ⟨"CS406: Information Security", "https://learn.saylor.org/course/view.php?id=453", "Intermediate information security course covering risk management, access control, security policies, and defensive strategies. Free certificate.", some "Intermediate", none⟩,
    ⟨"BUS206: Management Information Systems", "https://learn.saylor.org/course/view.php?id=41", "Introduction to MIS covering how organizations use information systems, IT infrastructure, and technology strategy. Free certificate.", some "Beginner", none⟩,
    ⟨"BUS303: Strategic Information Technology", "https://learn.saylor.org/course/view.php?id=1270", "Intermediate course on aligning IT strategy with business goals, enterprise architecture, and digital transformation planning. Free certificate.", some "Intermediate", none⟩,
    ⟨"BUS642: Applications of Management Information Systems", "https://learn.saylor.org/course/view.php?id=1283", "Advanced course on applying MIS in real organizations covering ERP, CRM, business intelligence, and emerging tech. Free certificate.", some "Advanced", none⟩,
    ⟨"PRDV201: Information Literacy", "https://learn.saylor.org/course/view.php?id=893", "Beginner course on finding, evaluating, and using digital information responsibly — essential skills for any tech professional. Free certificate.", some "Beginner", none⟩]),
  ("Project Management / Agile / Career Skills", [
    ⟨"BUS402: Introduction to Project Management", "https://learn.saylor.org/course/view.php?id=1147", "Intermediate introduction to project management covering scope, schedule, cost, risk, and stakeholder management fundamentals. Free certificate.", some "Intermediate", none⟩,
    ⟨"BUS604: Innovation and Sustainability", "https://learn.saylor.org/course/view.php?id=688", "Advanced course on driving innovation within organizations while maintaining sustainable business practices. Free certificate.", some "Advanced", none⟩,
    ⟨"BUS605: Strategic Project Management", "https://learn.saylor.org/course/view.php?id=736", "Advanced project management course covering portfolio management, program governance, and strategic alignment. Free certificate.", some "Advanced", none⟩,
    ⟨"BUS632: Digital Marketing and Advertising", "https://learn.saylor.org/course/view.php?id=1266", "Advanced course on digital marketing strategies, advertising platforms, SEO, and campaign management. Free certificate.", some "Advanced", none⟩,
    ⟨"BUS653: Innovation and Entrepreneurship Launch", "https://learn.saylor.org/course/view.php?id=1301", "Advanced course on launching new ventures covering ideation, validation, business modeling, and entrepreneurial strategy. Free certificate.", some "Advanced", none⟩,
    ⟨"BUS654: Entrepreneurship Seminar", "https://learn.saylor.org/course/view.php?id=1305", "Advanced entrepreneurship seminar covering funding, scaling, legal considerations, and building sustainable businesses. Free certificate.", some "Advanced", none⟩,
    ⟨"PRDV224: Leadership and Teams", "https://learn.saylor.org/course/view.php?id=1286", "Beginner course on leadership fundamentals, team dynamics, communication, and conflict resolution for professionals. Free certificate.", some "Beginner", none⟩,
    ⟨"PRDV227: Introduction to Business Planning and Strategy", "https://learn.saylor.org/course/view.php?id=1298", "Beginner course on creating business plans, defining strategy, and understanding market analysis and competitive positioning. Free certificate.", some "Beginner", none⟩,
    ⟨"PRDV003: Word Processing", "https://learn.saylor.org/course/view.php?id=890", "Beginner course on professional word processing skills including document formatting, templates, and advanced features. Free certificate.", some "Beginner", none⟩,
    ⟨"PRDV004: Spreadsheets", "https://learn.saylor.org/course/view.php?id=1263", "Beginner spreadsheet course covering formulas, functions, charts, and organizing data for business use. Free certificate.", some "Beginner", none⟩,
    ⟨"PRDV006: Spreadsheets II - Formatting and Functions", "https://learn.saylor.org/course/view.php?id=876", "Beginner course expanding spreadsheet skills with advanced formatting, logical functions, and data validation. Free certificate.", some "Beginner", none⟩,
    ⟨"PRDV007: Spreadsheets III - Presenting Data", "https://learn.saylor.org/course/view.php?id=877", "Beginner course on creating professional charts, pivot tables, and data presentations in spreadsheets. Free certificate.", some "Beginner", none⟩,
    ⟨"PRDV002: Professional Writing", "https://learn.saylor.org/course/view.php?id=729", "Beginner course on professional business writing including emails, reports, proposals, and clear workplace communication. Free certificate.", some "Beginner", none⟩,
    ⟨"PRDV102: Resume Writing", "https://learn.saylor.org/course/view.php?id=864", "Beginner course on crafting effective resumes, tailoring applications, and presenting skills to employers. Free certificate.", some "Beginner", none⟩,
    ⟨"PRDV103: Interviewing Skills", "https://learn.saylor.org/course/view.php?id=873", "Beginner course on interview preparation, answering common questions, and presenting yourself confidently to employers. Free certificate.", some "Beginner", none⟩])
]

def CATEGORIES : List String := [
  "Programming & Computer Science",
  "Data Science AI",
  "Web Development",
  "UX Design",
  "IT / Cybersecurity",
  "Project Management / Agile / Career Skills"
]

def MS_RELEVANCE_KEYWORDS : List (String × List String) := [
  ("Programming & Computer Science", ["python", "programming", "coding", "developer", "script"]),
  ("Data Science AI", ["ai", "artificial intelligence", "machine learning", "data science", "deep learning", "neural", "nlp"]),
  ("Web Development", ["web", "html", "css", "javascript", "frontend", "backend", "asp.net", "node"]),
  ("IT / Cybersecurity", ["security", "cybersecurity", "threat", "zero trust", "identity", "compliance", "defender"]),
  ("UX Design", ["UX design", "user experience design", "UI UX design", "wireframing", "usability"]),
  ("Project Management / Agile / Career Skills", ["project management", "agile", "scrum", "career skills", "workplace skills", "leadership"])
]

/-- `MS_KEYWORD_MAP` (lines 305-311). It only shapes the `term` parameter of
the outbound Microsoft Learn request, which `Env.msNet` abstracts; it is
transcribed for completeness. -/
def MS_KEYWORD_MAP : List (String × String) := [
  ("Programming & Computer Science", "python programming"),
  ("Data Science AI", "artificial intelligence machine learning"),
  ("Web Development", "web development javascript"),
  ("IT / Cybersecurity", "cybersecurity network security"),
  ("Project Management / Agile / Career Skills", "project management agile scrum")
]

/-- `MS_SUBJECT_MAP` (lines 314-321); like `MS_KEYWORD_MAP` it only shapes the
outbound request. -/
def MS_SUBJECT_MAP : List (String × String) := [
  ("Programming & Computer Science", "application-development"),
  ("Data Science AI", "artificial-intelligence"),
  ("Web Development", "application-development"),
  ("IT / Cybersecurity", "security"),
  ("UX Design", "design"),
  ("Project Management / Agile / Career Skills", "business-applications")
]

/-- One item of the YouTube search response, as `fetch_youtube` reads it:
`snippet.title`, `id.playlistId` (the empty string when the key is absent,
matching `item["id"].get("playlistId", "")`), and `snippet.description`
(defaulted to `""` by the source's `.get`). -/
structure YtItem where
  title : String
  playlistId : String
  description : String
  deriving DecidableEq, Repr

/-- One item of the Microsoft Learn catalog response, as
`fetch_microsoft_learn` reads it: `title` and `summary` (both defaulted to
`""`), `url` (a missing key is modelled by the Python default
`"https://learn.microsoft.com"` itself) and `levels` (a missing key is the
empty list, which the source treats the same way). -/
structure MsItem where
  title : String
  summary : String
  url : String
  levels : List String
  deriving DecidableEq, Repr

/-- The run's environment: every outside-world interaction the pipeline makes.
`svc` is the Claude description service (see `clean_description`); `ytNet` is
the YouTube search API call of `fetch_youtube` for a category, already parsed
into items (`Except.error ()` = any exception out of the request/JSON step);
`msNet` is the Microsoft Learn catalog request of `fetch_microsoft_learn`,
reduced to the item list the code selects (`learningPaths` or `modules` or
`results`); `today` is the single date that all of the run's
`datetime.today().strftime("%Y-%m-%d")` reads return while the run stays
within one calendar date. The source re-reads the clock at every
`build_resource` call (line 119) and once more for `generated` (line 829);
the clock-exact model `run_scraper_clock` below makes each of those reads an
explicit tick of a clock argument, so date uniformity is a property to prove
there, not an assumption. -/
structure Env where
  svc : String → String → String → Except Unit String
  ytNet : String → Except Unit (List YtItem)
  msNet : String → Except Unit (List MsItem)
  today : String

/-- The `try` part of `fetch_youtube` (lines 166-185): on any request error the
accumulated `results` list is empty; otherwise every item with a non-empty
playlist id becomes a Resource. -/
def youtube_live (env : Env) (category : String) : List Resource :=
  match env.ytNet category with
  | Except.error _ => []
  | Except.ok items =>
    items.filterMap (fun item =>
      if item.playlistId = "" then none
      else some (build_resource item.title
        ("https://www.youtube.com/playlist?list=" ++ item.playlistId)
        (clean_description env.svc item.title item.description category)
        "YouTube" category "All Levels" true env.today))

/-- The curated-append loop of `fetch_youtube` (lines 186-198): curated items
for the category whose url is not in `existing_urls` (the url set of the live
results, computed once before the loop) are built and appended. -/
def youtube_curated_append (env : Env) (category : String)
    (existing_urls : List String) : List Resource :=
  (((List.lookup category YOUTUBE_CURATED).getD []).filter
      (fun item => ! existing_urls.contains item.url)).map
    (fun item => build_resource item.title item.url
      (clean_description env.svc item.title item.description category)
      "YouTube" category (item.level.getD "All Levels") true env.today)

/-- Embeds `fetch_youtube` (lines 153-199). -/
def fetch_youtube (env : Env) (category : String) : List Resource :=
  youtube_live env category ++
    youtube_curated_append env category
      ((youtube_live env category).map (fun r => r.url))

/-- Embeds `fetch_mit_ocw` (lines 236-248). -/
def fetch_mit_ocw (env : Env) (category : String) : List Resource :=
  ((List.lookup category MITOCW_CURATED).getD []).map (fun item =>
    build_resource item.title item.url
      (clean_description env.svc item.title item.description category)
      "MIT OpenCourseWare" category "All Levels" true env.today)

/-- Embeds `fetch_freecodecamp` (lines 287-299). -/
def fetch_freecodecamp (env : Env) (category : String) : List Resource :=
  ((List.lookup category FCC_CURATED).getD []).map (fun item =>
    build_resource item.title item.url
      (clean_description env.svc item.title item.description category)
      "freeCodeCamp" category "All Levels" true env.today)

/-- The Resource built for one accepted Microsoft Learn item (lines 360-370):
relative urls get the site prefix, and the first `levels` entry is
`.capitalize()`d (an absent or empty `levels` list gives "All Levels"). -/
def msBuild (env : Env) (category : String) (item : MsItem) : Resource :=
  build_resource item.title
    (if item.url.startsWith "http" then item.url
     else "https://learn.microsoft.com" ++ item.url)
    (clean_description env.svc item.title item.summary category)
    "Microsoft Learn" category
    (match item.levels with
     | [] => "All Levels"
     | l :: _ => pyCapitalize l)
    true env.today

/-- The item loop of `fetch_microsoft_learn` (lines 352-372). `count` is
`len(results)` so far: an item whose lower-cased title+summary contains none
of the (non-empty list of) required terms is skipped, an accepted item is
appended, and the loop breaks once `len(results) >= max_results_per_source`.
The terms themselves are compared exactly as written, against the lower-cased
combined text. -/
def msLoop (env : Env) (category : String) (terms : List String) :
    List MsItem → Nat → List Resource
  | [], _ => []
  | item :: rest, count =>
    if !terms.isEmpty &&
        !(terms.any (fun t =>
          pyInStr t (pyLower (item.title ++ " " ++ item.summary)))) then
      msLoop env category terms rest count
    else if count + 1 ≥ max_results_per_source then
      [msBuild env category item]
    else
      msBuild env category item :: msLoop env category terms rest (count + 1)

/-- Embeds `fetch_microsoft_learn` (lines 323-375): on a request error the
accumulated `results` list is empty; otherwise the first
`max_results_per_source * 3` items are processed by `msLoop` with the
category's relevance keywords. -/
def fetch_microsoft_learn (env : Env) (category : String) : List Resource :=
  match env.msNet category with
  | Except.error _ => []
  | Except.ok items =>
    msLoop env category ((List.lookup category MS_RELEVANCE_KEYWORDS).getD [])
      (items.take (max_results_per_source * 3)) 0

/-- Embeds `fetch_aws` (lines 425-438). -/
def fetch_aws (env : Env) (category : String) : List Resource :=
  ((List.lookup category AWS_CURATED).getD []).map (fun item =>
    build_resource item.title item.url
      (clean_description env.svc item.title item.description category)
      "AWS Skill Builder" category (item.level.getD "All Levels") true env.today)

/-- Embeds `fetch_edx` (lines 469-482). -/
def fetch_edx (env : Env) (category : String) : List Resource :=
  ((List.lookup category EDX_CURATED).getD []).map (fun item =>
    build_resource item.title item.url
      (clean_description env.svc item.title item.description category)
      "edX" category (item.level.getD "All Levels") true env.today)

/-- Embeds `fetch_stanford` (lines 510-523): the platform honours
`platform_override`, and `level` is never passed (the source ignores the
curated `level` keys here), so it is always the default. -/
def fetch_stanford (env : Env) (category : String) : List Resource :=
  ((List.lookup category STANFORD_CURATED).getD []).map (fun item =>
    build_resource item.title item.url
      (clean_description env.svc item.title item.description category)
      (item.platform_override.getD "Stanford Online") category "All Levels" true env.today)

/-- Embeds `fetch_ibm` (lines 566-579). -/
def fetch_ibm (env : Env) (category : String) : List Resource :=
  ((List.lookup category IBM_CURATED).getD []).map (fun item =>
    build_resource item.title item.url
      (clean_description env.svc item.title item.description category)
      "IBM SkillsBuild" category (item.level.getD "All Levels") true env.today)

/-- Embeds `fetch_google` (lines 608-621). -/
def fetch_google (env : Env) (category : String) : List Resource :=
  ((List.lookup category GOOGLE_CURATED).getD []).map (fun item =>
    build_resource item.title item.url
      (clean_description env.svc item.title item.description category)
      "Google" category (item.level.getD "All Levels") true env.today)

/-- Embeds `fetch_helsinki` (lines 662-675). -/
def fetch_helsinki (env : Env) (category : String) : List Resource :=
  ((List.lookup category HELSINKI_CURATED).getD []).map (fun item =>
    build_resource item.title item.url
      (clean_description env.svc item.title item.description category)
      "Helsinki MOOC" category (item.level.getD "All Levels") true env.today)

/-- Embeds `fetch_khan` (lines 697-710). -/
def fetch_khan (env : Env) (category : String) : List Resource :=
  ((List.lookup category KHAN_CURATED).getD []).map (fun item =>
    build_resource item.title item.url
      (clean_description env.svc item.title item.description category)
      "Khan Academy" category (item.level.getD "All Levels") true env.today)

/-- Embeds `fetch_saylor` (lines 773-786). -/
def fetch_saylor (env : Env) (category : String) : List Resource :=
  ((List.lookup category SAYLOR_CURATED).getD []).map (fun item =>
    build_resource item.title item.url
      (clean_description env.svc item.title item.description category)
      "Saylor Academy" category (item.level.getD "All Levels") true env.today)

/-- The `FETCHERS` list (lines 789-802), in source order. -/
def FETCHERS : List (Env → String → List Resource) :=
  [fetch_youtube, fetch_mit_ocw, fetch_freecodecamp, fetch_microsoft_learn,
   fetch_aws, fetch_edx, fetch_stanford, fetch_ibm, fetch_google,
   fetch_helsinki, fetch_khan, fetch_saylor]

/-- The inner adapter loop of `run_scraper` (lines 813-817): each fetcher's
results are appended in order (the polite `time.sleep(1)` between calls has no
effect on the data). -/
def runFetchers (env : Env) (category : String) :
    List (Env → String → List Resource) → List Resource
  | [] => []
  | f :: fs => f env category ++ runFetchers env category fs

/-- The outer category loop of `run_scraper` (lines 811-817). -/
def runCategories (env : Env) : List String → List Resource
  | [] => []
  | c :: cs => runFetchers env c FETCHERS ++ runCategories env cs

/-- The accumulated `all_resources` sequence of `run_scraper` (lines 809-817):
category order, then adapter order, then within-adapter list order. -/
def accumulate (env : Env) : List Resource := runCategories env CATEGORIES

/-- The linear dedup pass of `run_scraper` (lines 819-826). `seen` is the
`seen_urls` set, modelled as the list of urls added so far; a resource whose
url was already seen is dropped, otherwise it is kept and its url recorded. -/
def dedupAux (seen : List String) : List Resource → List Resource
  | [] => []
  | r :: rs =>
    if r.url ∈ seen then dedupAux seen rs
    else r :: dedupAux (r.url :: seen) rs

/-- The dedup pass started with an empty `seen_urls` set, as in the source. -/
def dedup (rs : List Resource) : List Resource := dedupAux [] rs

/-- The output artifact (lines 828-833), fields in the source's key order. -/
structure Catalog where
  generated : String
  total : Nat
  categories : List String
  resources : List Resource
  deriving DecidableEq, Repr

/-- Embeds `run_scraper` (lines 804-839) up to the file write: accumulate all
(category × adapter) results, dedup by url, and assemble the output object. -/
def run_scraper (env : Env) : Catalog :=
  ⟨env.today, (dedup (accumulate env)).length, CATEGORIES, dedup (accumulate env)⟩

/-- How a write attempt of the final catalog can fail: the `open` call itself
fails (permissions, missing directory), or an I/O error hits after `k`
characters of the serialization have been written. -/
inductive WriteFailure where
  | openFail : WriteFailure
  | midWrite : Nat → WriteFailure
  deriving DecidableEq, Repr

/-- Models the terminal write of `run_scraper` (lines 835-836):
`with open(CONFIG["output_file"], "w", encoding="utf-8") as f: json.dump(output, f, ...)`.
`prior` is the output file's content before the run, `serialized` the
serialization of the new catalog, and the third argument the environment's
choice of failure. Python semantics made explicit: mode `"w"` truncates the
file as soon as `open` succeeds, and `json.dump` streams the serialization
incrementally, so an error after `k` characters leaves the file holding
`serialized[:k]`. No surrounding `try` exists in `run_scraper`, so a failure
propagates (`Except.error`), carrying the file content it leaves behind. -/
def write_catalog (prior serialized : String) :
    Option WriteFailure → Except String String
  | none => Except.ok serialized
  | some WriteFailure.openFail => Except.error prior
  | some (WriteFailure.midWrite k) => Except.error (pyTruncate serialized k)

/-- A description service that always raises: the Claude API unreachable. -/
def svcDown : String → String → String → Except Unit String :=
  fun _ _ _ => Except.error ()

/-- A run environment where every network call raises. -/
def envDown : Env :=
  ⟨svcDown, fun _ => Except.error (), fun _ => Except.error (), "2026-02-01"⟩

/-- A description service that succeeds but replies with the empty string. -/
def svcBlank : String → String → String → Except Unit String :=
  fun _ _ _ => Except.ok ""

/-- A run environment whose description service replies with empty text. -/
def envBlank : Env :=
  ⟨svcBlank, fun _ => Except.error (), fun _ => Except.error (), "2026-02-01"⟩

/-- A Microsoft Learn item whose title contains the required term "UX design"
in its original casing, with an empty summary and no levels. -/
def msItemUX : MsItem := ⟨"UX design fundamentals", "", "/training/paths/ux-basics/", []⟩

/-- A run environment whose Microsoft Learn request for "UX Design" returns
exactly `msItemUX`; everything else raises. -/
def envUX : Env :=
  ⟨svcDown, fun _ => Except.error (),
   fun c => if c = "UX Design" then Except.ok [msItemUX] else Except.error (),
   "2026-02-01"⟩

/-- The first resource the `envBlank` run produces: the first curated YouTube
playlist of the first category, whose description is the service's empty reply
stripped — the empty string. -/
def rBlankDesc : Resource :=
  ⟨"TypeScript Training [2026]",
   "https://www.youtube.com/playlist?list=PLEiEAq2VkUULrJCzLdveKPBEzYC5qPJud",
   "", "YouTube", "Programming & Computer Science", "All Levels", true,
   "2026-02-01"⟩

/-- The single Khan Academy resource for "IT / Cybersecurity" under `envDown`
(description = the curated raw description truncated to 200 characters, which
is all of it). -/
def rKhanIT : Resource :=
  ⟨"Computers and the Internet",
   "https://www.khanacademy.org/computing/computers-and-internet",
   "Beginner-friendly introduction to how computers work, how the internet functions, and the basics of cybersecurity and digital citizenship.",
   "Khan Academy", "IT / Cybersecurity", "Beginner", true, "2026-02-01"⟩

/-- Clock-exact model of the pipeline. A clock `Nat → String` gives the date
string returned by the n-th `datetime.today().strftime("%Y-%m-%d")` read of
the run; the source performs one such read per `build_resource` call (line
119) and a final one for `generated` (line 829). Each `_clock` definition
below is the same source function as its counterpart above, with the
read-counter `k` threaded explicitly: each call returns its resources and the
advanced counter. `clockMap` is the shared item loop of the curated
adapters: one resource built, one clock tick consumed, per item. -/
def clockMap {α : Type} (g : α → String → Resource) (clock : Nat → String) :
    List α → Nat → List Resource × Nat
  | [], k => ([], k)
  | x :: xs, k =>
    (g x (clock k) :: (clockMap g clock xs (k + 1)).1,
     (clockMap g clock xs (k + 1)).2)

/-- The item loop of the `try` part of `fetch_youtube`, clock-threaded: a
skipped item (empty playlist id) builds nothing and consumes no tick. -/
def ytLiveLoop (env : Env) (clock : Nat → String) (category : String) :
    List YtItem → Nat → List Resource × Nat
  | [], k => ([], k)
  | item :: rest, k =>
    if item.playlistId = "" then ytLiveLoop env clock category rest k
    else
      (build_resource item.title
        ("https://www.youtube.com/playlist?list=" ++ item.playlistId)
        (clean_description env.svc item.title item.description category)
        "YouTube" category "All Levels" true (clock k) ::
          (ytLiveLoop env clock category rest (k + 1)).1,
       (ytLiveLoop env clock category rest (k + 1)).2)

/-- `youtube_live`, clock-threaded. -/
def youtube_live_clock (env : Env) (clock : Nat → String) (category : String)
    (k : Nat) : List Resource × Nat :=
  match env.ytNet category with
  | Except.error _ => ([], k)
  | Except.ok items => ytLiveLoop env clock category items k

/-- `fetch_youtube`, clock-threaded: live results first, then the curated
items not already present, each build consuming the next tick. -/
def fetch_youtube_clock (env : Env) (clock : Nat → String) (category : String)
    (k : Nat) : List Resource × Nat :=
  ((youtube_live_clock env clock category k).1 ++
    (clockMap (fun item date => build_resource item.title item.url
        (clean_description env.svc item.title item.description category)
        "YouTube" category (item.level.getD "All Levels") true date) clock
      (((List.lookup category YOUTUBE_CURATED).getD []).filter
        (fun item => ! ((youtube_live_clock env clock category k).1.map
          (fun r => r.url)).contains item.url))
      (youtube_live_clock env clock category k).2).1,
   (clockMap (fun item date => build_resource item.title item.url
        (clean_description env.svc item.title item.description category)
        "YouTube" category (item.level.getD "All Levels") true date) clock
      (((List.lookup category YOUTUBE_CURATED).getD []).filter
        (fun item => ! ((youtube_live_clock env clock category k).1.map
          (fun r => r.url)).contains item.url))
      (youtube_live_clock env clock category k).2).2)

/-- `fetch_mit_ocw`, clock-threaded. -/
def fetch_mit_ocw_clock (env : Env) (clock : Nat → String) (category : String)
    (k : Nat) : List Resource × Nat :=
  clockMap (fun item date => build_resource item.title item.url
      (clean_description env.svc item.title item.description category)
      "MIT OpenCourseWare" category "All Levels" true date) clock
    ((List.lookup category MITOCW_CURATED).getD []) k

/-- `fetch_freecodecamp`, clock-threaded. -/
def fetch_freecodecamp_clock (env : Env) (clock : Nat → String)
    (category : String) (k : Nat) : List Resource × Nat :=
  clockMap (fun item date => build_resource item.title item.url
      (clean_description env.svc item.title item.description category)
      "freeCodeCamp" category "All Levels" true date) clock
    ((List.lookup category FCC_CURATED).getD []) k

/-- `msBuild` with the date of the build's own clock read made explicit. -/
def msBuild_clock (env : Env) (category : String) (item : MsItem)
    (date : String) : Resource :=
  build_resource item.title
    (if item.url.startsWith "http" then item.url
     else "https://learn.microsoft.com" ++ item.url)
    (clean_description env.svc item.title item.summary category)
    "Microsoft Learn" category
    (match item.levels with
     | [] => "All Levels"
     | l :: _ => pyCapitalize l)
    true date

/-- `msLoop`, clock-threaded: a skipped (irrelevant) item consumes no tick. -/
def msLoop_clock (env : Env) (clock : Nat → String) (category : String)
    (terms : List String) : List MsItem → Nat → Nat → List Resource × Nat
  | [], _, k => ([], k)
  | item :: rest, count, k =>
    if !terms.isEmpty &&
        !(terms.any (fun t =>
          pyInStr t (pyLower (item.title ++ " " ++ item.summary)))) then
      msLoop_clock env clock category terms rest count k
    else if count + 1 ≥ max_results_per_source then
      ([msBuild_clock env category item (clock k)], k + 1)
    else
      (msBuild_clock env category item (clock k) ::
        (msLoop_clock env clock category terms rest (count + 1) (k + 1)).1,
       (msLoop_clock env clock category terms rest (count + 1) (k + 1)).2)

/-- `fetch_microsoft_learn`, clock-threaded. -/
def fetch_microsoft_learn_clock (env : Env) (clock : Nat → String)
    (category : String) (k : Nat) : List Resource × Nat :=
  match env.msNet category with
  | Except.error _ => ([], k)
  | Except.ok items =>
    msLoop_clock env clock category
      ((List.lookup category MS_RELEVANCE_KEYWORDS).getD [])
      (items.take (max_results_per_source * 3)) 0 k

/-- `fetch_aws`, clock-threaded. -/
def fetch_aws_clock (env : Env) (clock : Nat → String) (category : String)
    (k : Nat) : List Resource × Nat :=
  clockMap (fun item date => build_resource item.title item.url
      (clean_description env.svc item.title item.description category)
      "AWS Skill Builder" category (item.level.getD "All Levels") true date)
    clock ((List.lookup category AWS_CURATED).getD []) k

/-- `fetch_edx`, clock-threaded. -/
def fetch_edx_clock (env : Env) (clock : Nat → String) (category : String)
    (k : Nat) : List Resource × Nat :=
  clockMap (fun item date => build_resource item.title item.url
      (clean_description env.svc item.title item.description category)
      "edX" category (item.level.getD "All Levels") true date)
    clock ((List.lookup category EDX_CURATED).getD []) k

/-- `fetch_stanford`, clock-threaded. -/
def fetch_stanford_clock (env : Env) (clock : Nat → String) (category : String)
    (k : Nat) : List Resource × Nat :=
  clockMap (fun item date => build_resource item.title item.url
      (clean_description env.svc item.title item.description category)
      (item.platform_override.getD "Stanford Online") category "All Levels"
      true date)
    clock ((List.lookup category STANFORD_CURATED).getD []) k

/-- `fetch_ibm`, clock-threaded. -/
def fetch_ibm_clock (env : Env) (clock : Nat → String) (category : String)
    (k : Nat) : List Resource × Nat :=
  clockMap (fun item date => build_resource item.title item.url
      (clean_description env.svc item.title item.description category)
      "IBM SkillsBuild" category (item.level.getD "All Levels") true date)
    clock ((List.lookup category IBM_CURATED).getD []) k

/-- `fetch_google`, clock-threaded. -/
def fetch_google_clock (env : Env) (clock : Nat → String) (category : String)
    (k : Nat) : List Resource × Nat :=
  clockMap (fun item date => build_resource item.title item.url
      (clean_description env.svc item.title item.description category)
      "Google" category (item.level.getD "All Levels") true date)
    clock ((List.lookup category GOOGLE_CURATED).getD []) k

/-- `fetch_helsinki`, clock-threaded. -/
def fetch_helsinki_clock (env : Env) (clock : Nat → String) (category : String)
    (k : Nat) : List Resource × Nat :=
  clockMap (fun item date => build_resource item.title item.url
      (clean_description env.svc item.title item.description category)
      "Helsinki MOOC" category (item.level.getD "All Levels") true date)
    clock ((List.lookup category HELSINKI_CURATED).getD []) k

/-- `fetch_khan`, clock-threaded. -/
def fetch_khan_clock (env : Env) (clock : Nat → String) (category : String)
    (k : Nat) : List Resource × Nat :=
  clockMap (fun item date => build_resource item.title item.url
      (clean_description env.svc item.title item.description category)
      "Khan Academy" category (item.level.getD "All Levels") true date)
    clock ((List.lookup category KHAN_CURATED).getD []) k

/-- `fetch_saylor`, clock-threaded. -/
def fetch_saylor_clock (env : Env) (clock : Nat → String) (category : String)
    (k : Nat) : List Resource × Nat :=
  clockMap (fun item date => build_resource item.title item.url
      (clean_description env.svc item.title item.description category)
      "Saylor Academy" category (item.level.getD "All Levels") true date)
    clock ((List.lookup category SAYLOR_CURATED).getD []) k

/-- The `FETCHERS` list, clock-threaded, in source order. -/
def FETCHERS_CLOCK :
    List (Env → (Nat → String) → String → Nat → List Resource × Nat) :=
  [fetch_youtube_clock, fetch_mit_ocw_clock, fetch_freecodecamp_clock,
   fetch_microsoft_learn_clock, fetch_aws_clock, fetch_edx_clock,
   fetch_stanford_clock, fetch_ibm_clock, fetch_google_clock,
   fetch_helsinki_clock, fetch_khan_clock, fetch_saylor_clock]

/-- The inner adapter loop of `run_scraper`, clock-threaded. -/
def runFetchers_clock (env : Env) (clock : Nat → String) (category : String) :
    List (Env → (Nat → String) → String → Nat → List Resource × Nat) →
      Nat → List Resource × Nat
  | [], k => ([], k)
  | f :: fs, k =>
    ((f env clock category k).1 ++
      (runFetchers_clock env clock category fs (f env clock category k).2).1,
     (runFetchers_clock env clock category fs (f env clock category k).2).2)

/-- The outer category loop of `run_scraper`, clock-threaded. -/
def runCategories_clock (env : Env) (clock : Nat → String) :
    List String → Nat → List Resource × Nat
  | [], k => ([], k)
  | c :: cs, k =>
    ((runFetchers_clock env clock c FETCHERS_CLOCK k).1 ++
      (runCategories_clock env clock cs
        (runFetchers_clock env clock c FETCHERS_CLOCK k).2).1,
     (runCategories_clock env clock cs
        (runFetchers_clock env clock c FETCHERS_CLOCK k).2).2)

/-- `run_scraper` with every `datetime.today()` read explicit: the i-th
`build_resource` call stamps `retrieved` with `clock i`, and after all builds
the `generated` field takes one further read (line 829). -/
def run_scraper_clock (env : Env) (clock : Nat → String) : Catalog :=
  ⟨clock (runCategories_clock env clock CATEGORIES 0).2,
   (dedup (runCategories_clock env clock CATEGORIES 0).1).length,
   CATEGORIES,
   dedup (runCategories_clock env clock CATEGORIES 0).1⟩

/-- A clock that answers every read with the same date: a run that stays
within one calendar date. -/
def clockConst : Nat → String := fun _ => "2026-02-01"

/-- A clock for a run that crosses midnight: the first read happens before
the date change, all later ones after it. -/
def clockMidnight : Nat → String :=
  fun k => if k = 0 then "2026-02-01" else "2026-02-02"

/-- The first resource built in the `envDown` run under `clockMidnight`:
build call 0, stamped with the pre-midnight date. -/
def rMidnight0 : Resource :=
  ⟨"TypeScript Training [2026]",
   "https://www.youtube.com/playlist?list=PLEiEAq2VkUULrJCzLdveKPBEzYC5qPJud",
   "Comprehensive TypeScript training covering types, interfaces, generics, and modern TypeScript development practices.",
   "YouTube", "Programming & Computer Science", "All Levels", true,
   "2026-02-01"⟩

/-- The second resource built in the `envDown` run under `clockMidnight`:
build call 1, stamped with the post-midnight date. -/
def rMidnight1 : Resource :=
  ⟨"Go Programming Language Tutorial [2026]",
   "https://www.youtube.com/playlist?list=PLEiEAq2VkUUIxgVSjwbOfWmnGrVWwjYlI",
   "Full Go programming course covering syntax, concurrency, web APIs, and building production-ready Go applications.",
   "YouTube", "Programming & Computer Science", "All Levels", true,
   "2026-02-02"⟩

/-- Every element the dedup pass keeps was in the input list. -/
theorem dedupAux_sub (rs : List Resource) :
    ∀ (seen : List String) (r : Resource), r ∈ dedupAux seen rs → r ∈ rs := by
  induction rs with
  | nil => intro seen r h; simp [dedupAux] at h
  | cons a as ih =>
    intro seen r h
    simp only [dedupAux] at h
    split at h
    · exact List.mem_cons_of_mem a (ih seen r h)
    · rcases List.mem_cons.mp h with rfl | h2
      · exact List.mem_cons_self _ _
      · exact List.mem_cons_of_mem _ (ih _ r h2)

/-- Every element the dedup pass keeps has a url not in the starting seen set. -/
theorem dedupAux_url_not_seen (rs : List Resource) :
    ∀ (seen : List String) (r : Resource), r ∈ dedupAux seen rs → r.url ∉ seen := by
  induction rs with
  | nil => intro seen r h; simp [dedupAux] at h
  | cons a as ih =>
    intro seen r h
    simp only [dedupAux] at h
    split at h
    case isTrue hc => exact ih seen r h
    case isFalse hc =>
      rcases List.mem_cons.mp h with rfl | h2
      · exact hc
      · have hns := ih _ r h2
        intro hmem
        exact hns (List.mem_cons_of_mem _ hmem)

/-- The urls of the dedup pass's output are pairwise distinct. -/
theorem dedupAux_nodup_urls (rs : List Resource) :
    ∀ (seen : List String), ((dedupAux seen rs).map (fun r => r.url)).Nodup := by
  induction rs with
  | nil => intro seen; simp [dedupAux]
  | cons a as ih =>
    intro seen
    simp only [dedupAux]
    split
    · exact ih seen
    · simp only [List.map_cons, List.nodup_cons]
      refine ⟨?_, ih _⟩
      intro hmem
      rcases List.mem_map.mp hmem with ⟨r, hr, hurl⟩
      have hns := dedupAux_url_not_seen as _ r hr
      exact hns (by rw [hurl]; exact List.mem_cons_self _ _)

/-- Cons step of `List.filter`, predicate explicit (false case). -/
theorem filter_cons_neg (p : Resource → Bool) (a : Resource) (l : List Resource)
    (h : p a = false) : (a :: l).filter p = l.filter p :=
  List.filter_cons_of_neg (by simp [h])

/-- Cons step of `List.filter`, predicate explicit (true case). -/
theorem filter_cons_pos (p : Resource → Bool) (a : Resource) (l : List Resource)
    (h : p a = true) : (a :: l).filter p = a :: l.filter p :=
  List.filter_cons_of_pos h

/-- Cons step of `List.find?`, predicate explicit (true case). -/
theorem find?_cons_pos (p : Resource → Bool) (a : Resource) (l : List Resource)
    (h : p a = true) : (a :: l).find? p = some a :=
  List.find?_cons_of_pos l h

/-- Cons step of `List.find?`, predicate explicit (false case). -/
theorem find?_cons_neg (p : Resource → Bool) (a : Resource) (l : List Resource)
    (h : p a = false) : (a :: l).find? p = l.find? p :=
  List.find?_cons_of_neg l (by simp [h])

/-- A url already in the seen set never appears in the dedup pass's output. -/
theorem dedupAux_filter_seen (rs : List Resource) :
    ∀ (seen : List String) (u : String), u ∈ seen →
      (dedupAux seen rs).filter (fun r => r.url == u) = [] := by
  induction rs with
  | nil => intro seen u hu; simp [dedupAux]
  | cons a as ih =>
    intro seen u hu
    simp only [dedupAux]
    split
    · exact ih seen u hu
    case isFalse hc =>
      have hfalse : (a.url == u) = false := by
        refine beq_eq_false_iff_ne.mpr ?_
        intro he
        exact hc (by rw [he]; exact hu)
      rw [filter_cons_neg (fun r => r.url == u) a _ hfalse]
      exact ih _ u (List.mem_cons_of_mem _ hu)

/-- For a url not yet seen, the dedup pass keeps exactly the input's first
resource with that url: filtering the output for the url gives the singleton
of `find?` on the input (or nothing when the url never occurs). -/
theorem dedupAux_filter_not_seen (rs : List Resource) :
    ∀ (seen : List String) (u : String), u ∉ seen →
      (dedupAux seen rs).filter (fun r => r.url == u) =
        ((rs.find? (fun r => r.url == u)).toList) := by
  induction rs with
  | nil => intro seen u hu; simp [dedupAux]
  | cons a as ih =>
    intro seen u hu
    simp only [dedupAux]
    by_cases hc : a.url ∈ seen
    · rw [if_pos hc]
      have hfalse : (a.url == u) = false := by
        refine beq_eq_false_iff_ne.mpr ?_
        intro he
        exact hu (by rw [← he]; exact hc)
      rw [find?_cons_neg (fun r => r.url == u) a as hfalse]
      exact ih seen u hu
    · rw [if_neg hc]
      by_cases he : a.url = u
      · have hb : (a.url == u) = true := by rw [he]; exact beq_self_eq_true u
        rw [filter_cons_pos (fun r => r.url == u) a _ hb,
          find?_cons_pos (fun r => r.url == u) a as hb]
        have hrest : (dedupAux (a.url :: seen) as).filter (fun r => r.url == u) = [] :=
          dedupAux_filter_seen as _ u (by rw [← he]; exact List.mem_cons_self _ _)
        rw [hrest]
        rfl
      · have hfalse : (a.url == u) = false := beq_eq_false_iff_ne.mpr (fun hb => he hb)
        rw [filter_cons_neg (fun r => r.url == u) a _ hfalse,
          find?_cons_neg (fun r => r.url == u) a as hfalse]
        refine ih _ u ?_
        intro hm
        rcases List.mem_cons.mp hm with h3 | h3
        · exact he h3.symm
        · exact hu h3

/-- Every input resource whose url is not pre-seen leaves a representative
with the same url in the dedup pass's output. -/
theorem dedupAux_url_mem (rs : List Resource) :
    ∀ (seen : List String) (r : Resource), r ∈ rs → r.url ∉ seen →
      ∃ rr, rr ∈ dedupAux seen rs ∧ rr.url = r.url := by
  induction rs with
  | nil => intro seen r h hs; exact absurd h (List.not_mem_nil r)
  | cons a as ih =>
    intro seen r hr hseen
    simp only [dedupAux]
    by_cases hc : a.url ∈ seen
    · rw [if_pos hc]
      rcases List.mem_cons.mp hr with rfl | h2
      · exact absurd hc hseen
      · exact ih seen r h2 hseen
    · rw [if_neg hc]
      rcases List.mem_cons.mp hr with rfl | h2
      · exact ⟨_, List.mem_cons_self _ _, rfl⟩
      · by_cases he : r.url = a.url
        · exact ⟨a, List.mem_cons_self _ _, he.symm⟩
        · obtain ⟨rr, hrr, hurl⟩ := ih (a.url :: seen) r h2 (by
            intro hm
            rcases List.mem_cons.mp hm with h3 | h3
            · exact he h3
            · exact hseen h3)
          exact ⟨rr, List.mem_cons_of_mem _ hrr, hurl⟩

/-- A list with pairwise distinct urls, none pre-seen, passes the dedup pass
unchanged. -/
theorem dedupAux_fixed (l : List Resource) :
    ∀ (seen : List String), (∀ r ∈ l, r.url ∉ seen) →
      ((l.map (fun r => r.url)).Nodup) → dedupAux seen l = l := by
  induction l with
  | nil => intro seen _ _; rfl
  | cons a as ih =>
    intro seen hseen hnodup
    simp only [List.map_cons, List.nodup_cons] at hnodup
    simp only [dedupAux]
    rw [if_neg (hseen a (List.mem_cons_self _ _))]
    congr 1
    apply ih
    · intro r hr hmem
      rcases List.mem_cons.mp hmem with h3 | h3
      · exact hnodup.1 (by rw [← h3]; exact List.mem_map.mpr ⟨r, hr, rfl⟩)
      · exact hseen r (List.mem_cons_of_mem _ hr) h3
    · exact hnodup.2

/-- Decomposing membership in the inner adapter loop. -/
theorem runFetchers_mem (env : Env) (c : String) :
    ∀ (fs : List (Env → String → List Resource)) (r : Resource),
      r ∈ runFetchers env c fs → ∃ f, f ∈ fs ∧ r ∈ f env c := by
  intro fs
  induction fs with
  | nil => intro r h; simp [runFetchers] at h
  | cons f fs ih =>
    intro r h
    simp only [runFetchers] at h
    rcases List.mem_append.mp h with h1 | h2
    · exact ⟨f, List.mem_cons_self _ _, h1⟩
    · obtain ⟨g, hg, hr⟩ := ih r h2
      exact ⟨g, List.mem_cons_of_mem _ hg, hr⟩

/-- Composing membership into the inner adapter loop. -/
theorem runFetchers_mem_rev (env : Env) (c : String) :
    ∀ (fs : List (Env → String → List Resource))
      (f : Env → String → List Resource) (r : Resource),
      f ∈ fs → r ∈ f env c → r ∈ runFetchers env c fs := by
  intro fs
  induction fs with
  | nil => intro f r h hr; exact absurd h (List.not_mem_nil f)
  | cons g gs ih =>
    intro f r hf hr
    simp only [runFetchers]
    rcases List.mem_cons.mp hf with rfl | h2
    · exact List.mem_append.mpr (Or.inl hr)
    · exact List.mem_append.mpr (Or.inr (ih f r h2 hr))

/-- Decomposing membership in the outer category loop. -/
theorem runCategories_mem (env : Env) :
    ∀ (cats : List String) (r : Resource),
      r ∈ runCategories env cats →
        ∃ c, c ∈ cats ∧ r ∈ runFetchers env c FETCHERS := by
  intro cats
  induction cats with
  | nil => intro r h; simp [runCategories] at h
  | cons c cs ih =>
    intro r h
    simp only [runCategories] at h
    rcases List.mem_append.mp h with h1 | h2
    · exact ⟨c, List.mem_cons_self _ _, h1⟩
    · obtain ⟨d, hd, hr⟩ := ih r h2
      exact ⟨d, List.mem_cons_of_mem _ hd, hr⟩

/-- Composing membership into the outer category loop. -/
theorem runCategories_mem_rev (env : Env) :
    ∀ (cats : List String) (c : String) (r : Resource),
      c ∈ cats → r ∈ runFetchers env c FETCHERS → r ∈ runCategories env cats := by
  intro cats
  induction cats with
  | nil => intro c r h hr; exact absurd h (List.not_mem_nil c)
  | cons d ds ih =>
    intro c r hc hr
    simp only [runCategories]
    rcases List.mem_cons.mp hc with rfl | h2
    · exact List.mem_append.mpr (Or.inl hr)
    · exact List.mem_append.mpr (Or.inr (ih c r h2 hr))

/-- The shape every adapter-produced resource has: its category is the call's
category argument, its retrieved date is the run's date, and its description
is a `clean_description` result for some title and raw description. -/
def FetchProps (env : Env) (c : String) (r : Resource) : Prop :=
  r.category = c ∧ r.retrieved = env.today ∧
    ∃ t raw, r.description = clean_description env.svc t raw c

/-- Every resource a curated-table adapter builds satisfies `FetchProps`. -/
theorem mem_curated_props (env : Env) (c : String)
    (tbl : List (String × List CuratedItem))
    (platform : CuratedItem → String) (level : CuratedItem → String)
    (r : Resource)
    (h : r ∈ ((List.lookup c tbl).getD []).map (fun item =>
      build_resource item.title item.url
        (clean_description env.svc item.title item.description c)
        (platform item) c (level item) true env.today)) : FetchProps env c r := by
  rcases List.mem_map.mp h with ⟨item, _, rfl⟩
  exact ⟨rfl, rfl, item.title, item.description, rfl⟩

theorem youtube_live_props (env : Env) (c : String) (r : Resource)
    (h : r ∈ youtube_live env c) : FetchProps env c r := by
  unfold youtube_live at h
  split at h
  · simp at h
  · rcases List.mem_filterMap.mp h with ⟨item, _, hsome⟩
    by_cases hp : item.playlistId = ""
    · rw [if_pos hp] at hsome; cases hsome
    · rw [if_neg hp] at hsome
      rcases Option.some.inj hsome with rfl
      exact ⟨rfl, rfl, item.title, item.description, rfl⟩

theorem fetch_youtube_props (env : Env) (c : String) (r : Resource)
    (h : r ∈ fetch_youtube env c) : FetchProps env c r := by
  unfold fetch_youtube at h
  rcases List.mem_append.mp h with h1 | h2
  · exact youtube_live_props env c r h1
  · unfold youtube_curated_append at h2
    rcases List.mem_map.mp h2 with ⟨item, _, rfl⟩
    exact ⟨rfl, rfl, item.title, item.description, rfl⟩

theorem fetch_mit_ocw_props (env : Env) (c : String) (r : Resource)
    (h : r ∈ fetch_mit_ocw env c) : FetchProps env c r :=
  mem_curated_props env c MITOCW_CURATED (fun _ => "MIT OpenCourseWare")
    (fun _ => "All Levels") r h

theorem fetch_freecodecamp_props (env : Env) (c : String) (r : Resource)
    (h : r ∈ fetch_freecodecamp env c) : FetchProps env c r :=
  mem_curated_props env c FCC_CURATED (fun _ => "freeCodeCamp")
    (fun _ => "All Levels") r h

theorem msLoop_props (env : Env) (c : String) (terms : List String) :
    ∀ (items : List MsItem) (count : Nat) (r : Resource),
      r ∈ msLoop env c terms items count → FetchProps env c r := by
  intro items
  induction items with
  | nil => intro count r h; simp [msLoop] at h
  | cons item rest ih =>
    intro count r h
    simp only [msLoop] at h
    split at h
    · exact ih count r h
    · split at h
      · rcases List.mem_singleton.mp h with rfl
        exact ⟨rfl, rfl, item.title, item.summary, rfl⟩
      · rcases List.mem_cons.mp h with rfl | h2
        · exact ⟨rfl, rfl, item.title, item.summary, rfl⟩
        · exact ih (count + 1) r h2

theorem fetch_microsoft_learn_props (env : Env) (c : String) (r : Resource)
    (h : r ∈ fetch_microsoft_learn env c) : FetchProps env c r := by
  unfold fetch_microsoft_learn at h
  split at h
  · simp at h
  · exact msLoop_props env c _ _ _ r h

theorem fetch_aws_props (env : Env) (c : String) (r : Resource)
    (h : r ∈ fetch_aws env c) : FetchProps env c r :=
  mem_curated_props env c AWS_CURATED (fun _ => "AWS Skill Builder")
    (fun item => item.level.getD "All Levels") r h

theorem fetch_edx_props (env : Env) (c : String) (r : Resource)
    (h : r ∈ fetch_edx env c) : FetchProps env c r :=
  mem_curated_props env c EDX_CURATED (fun _ => "edX")
    (fun item => item.level.getD "All Levels") r h

theorem fetch_stanford_props (env : Env) (c : String) (r : Resource)
    (h : r ∈ fetch_stanford env c) : FetchProps env c r :=
  mem_curated_props env c STANFORD_CURATED
    (fun item => item.platform_override.getD "Stanford Online")
    (fun _ => "All Levels") r h

theorem fetch_ibm_props (env : Env) (c : String) (r : Resource)
    (h : r ∈ fetch_ibm env c) : FetchProps env c r :=
  mem_curated_props env c IBM_CURATED (fun _ => "IBM SkillsBuild")
    (fun item => item.level.getD "All Levels") r h

theorem fetch_google_props (env : Env) (c : String) (r : Resource)
    (h : r ∈ fetch_google env c) : FetchProps env c r :=
  mem_curated_props env c GOOGLE_CURATED (fun _ => "Google")
    (fun item => item.level.getD "All Levels") r h

theorem fetch_helsinki_props (env : Env) (c : String) (r : Resource)
    (h : r ∈ fetch_helsinki env c) : FetchProps env c r :=
  mem_curated_props env c HELSINKI_CURATED (fun _ => "Helsinki MOOC")
    (fun item => item.level.getD "All Levels") r h

theorem fetch_khan_props (env : Env) (c : String) (r : Resource)
    (h : r ∈ fetch_khan env c) : FetchProps env c r :=
  mem_curated_props env c KHAN_CURATED (fun _ => "Khan Academy")
    (fun item => item.level.getD "All Levels") r h

theorem fetch_saylor_props (env : Env) (c : String) (r : Resource)
    (h : r ∈ fetch_saylor env c) : FetchProps env c r :=
  mem_curated_props env c SAYLOR_CURATED (fun _ => "Saylor Academy")
    (fun item => item.level.getD "All Levels") r h

/-- Every adapter of the `FETCHERS` list satisfies `FetchProps`. -/
theorem fetchers_props (f : Env → String → List Resource) (hf : f ∈ FETCHERS) :
    ∀ (env : Env) (c : String) (r : Resource), r ∈ f env c → FetchProps env c r := by
  simp only [FETCHERS, List.mem_cons, List.not_mem_nil, or_false] at hf
  rcases hf with rfl | rfl | rfl | rfl | rfl | rfl | rfl | rfl | rfl | rfl | rfl | rfl
  · exact fetch_youtube_props
  · exact fetch_mit_ocw_props
  · exact fetch_freecodecamp_props
  · exact fetch_microsoft_learn_props
  · exact fetch_aws_props
  · exact fetch_edx_props
  · exact fetch_stanford_props
  · exact fetch_ibm_props
  · exact fetch_google_props
  · exact fetch_helsinki_props
  · exact fetch_khan_props
  · exact fetch_saylor_props

/-- Every accumulated resource comes from a configured category with
`FetchProps`. -/
theorem accumulate_props (env : Env) (r : Resource) (h : r ∈ accumulate env) :
    ∃ c, c ∈ CATEGORIES ∧ FetchProps env c r := by
  obtain ⟨c, hc, hr⟩ := runCategories_mem env CATEGORIES r h
  obtain ⟨f, hf, hr2⟩ := runFetchers_mem env c FETCHERS r hr
  exact ⟨c, hc, fetchers_props f hf env c r hr2⟩

/-- On a service exception, `clean_description` is determined by the raw
description alone. -/
theorem clean_description_error
    (svc : String → String → String → Except Unit String) (t raw c : String)
    (h : svc t raw c = Except.error ()) :
    clean_description svc t raw c =
      (if raw = "" then "No description available." else pyTruncate raw 200) := by
  unfold clean_description
  rw [h]

/-- A string built from a non-empty character list is not the empty string. -/
theorem string_mk_ne_empty (l : List Char) (h : l ≠ []) : (⟨l⟩ : String) ≠ "" := by
  intro he
  exact h (congrArg String.data he)

/-- The fallback value of `clean_description` is never the empty string. -/
theorem clean_description_fallback_ne
    (svc : String → String → String → Except Unit String) (t raw c : String)
    (h : svc t raw c = Except.error ()) :
    clean_description svc t raw c ≠ "" := by
  rw [clean_description_error svc t raw c h]
  by_cases hr : raw = ""
  · rw [if_pos hr]
    decide
  · rw [if_neg hr]
    show (⟨raw.data.take 200⟩ : String) ≠ ""
    apply string_mk_ne_empty
    intro htake
    rcases List.take_eq_nil_iff.mp htake with h200 | hdata
    · exact absurd h200 (by decide)
    · exact hr (congrArg String.mk hdata)

/-- C1: deduplication keeps the first occurrence of each url. For every run
environment (hence for every accumulated list the iteration over
(category order, adapter order, within-adapter list order) can produce),
filtering the deduplicated catalog for any url `u` yields exactly the first
element of the accumulated sequence carrying that url — `find?` on the
accumulated list — so of two resources with equal `url` and different other
fields the catalog contains exactly the earlier one and drops all later ones. -/
theorem dedup_first_seen (env : Env) (u : String) :
    ((run_scraper env).resources.filter (fun r => r.url == u)) =
      (((accumulate env).find? (fun r => r.url == u)).toList) :=
  dedupAux_filter_not_seen (accumulate env) [] u (List.not_mem_nil u)

/-- C2: every catalog a run produces satisfies the catalog invariants:
`total` equals the length of `resources`; every resource's `category` is a
member of the catalog's `categories` list; and the resources' urls are
pairwise distinct. -/
theorem catalog_invariants (env : Env) :
    (run_scraper env).total = (run_scraper env).resources.length
    ∧ ((run_scraper env).resources.all
        (fun r => (run_scraper env).categories.contains r.category)) = true
    ∧ (((run_scraper env).resources.map (fun r => r.url)).Nodup) := by
  refine ⟨rfl, ?_, dedupAux_nodup_urls (accumulate env) []⟩
  rw [List.all_eq_true]
  intro r hr
  obtain ⟨c, hc, hcat, _, _⟩ :=
    accumulate_props env r (dedupAux_sub (accumulate env) [] r hr)
  rw [hcat]
  exact List.elem_iff.mpr hc

/-- C3: whenever the external text-generation service fails (the call inside
the `try` block raises), `clean_description` returns — the embedding is total
— the raw description truncated to 200 characters when it is non-empty and
the fixed placeholder when it is empty, a result that is non-empty and (as the
right-hand side shows) derived from `raw_description` alone. -/
theorem clean_description_fallback
    (svc : String → String → String → Except Unit String)
    (title raw_description category : String)
    (h : svc title raw_description category = Except.error ()) :
    clean_description svc title raw_description category =
      (if raw_description = "" then "No description available."
       else pyTruncate raw_description 200)
    ∧ clean_description svc title raw_description category ≠ "" :=
  ⟨clean_description_error svc title raw_description category h,
   clean_description_fallback_ne svc title raw_description category h⟩

/-- Witness for C3 at a concrete failing service and inputs. -/
theorem clean_description_fallback_witness :
    svcDown "Intro" "A raw course description" "Web Development" = Except.error ()
    ∧ (clean_description svcDown "Intro" "A raw course description" "Web Development" =
        (if "A raw course description" = "" then "No description available."
         else pyTruncate "A raw course description" 200)
      ∧ clean_description svcDown "Intro" "A raw course description" "Web Development" ≠ "") :=
  ⟨rfl, clean_description_fallback svcDown "Intro" "A raw course description"
    "Web Development" rfl⟩

/-- C4: adapter isolation. When the YouTube request and the Microsoft Learn
request both raise for every category, `fetch_youtube` still returns its
curated fallback list and `fetch_microsoft_learn` the empty list (each a list,
no exception escaping the adapter), and every resource any adapter produces
for a configured category keeps a representative with its url in the final
catalog — one adapter's failure never removes other adapters' resources. -/
theorem adapter_isolation (env : Env)
    (hyt : env.ytNet = fun _ => Except.error ())
    (hms : env.msNet = fun _ => Except.error ()) :
    (∀ c, fetch_youtube env c = youtube_curated_append env c [])
    ∧ (∀ c, fetch_microsoft_learn env c = [])
    ∧ (∀ c f r, c ∈ CATEGORIES → f ∈ FETCHERS → r ∈ f env c →
        ∃ rr, rr ∈ (run_scraper env).resources ∧ rr.url = r.url) := by
  refine ⟨?_, ?_, ?_⟩
  · intro c
    have hlive : youtube_live env c = [] := by unfold youtube_live; rw [hyt]
    unfold fetch_youtube
    rw [hlive]
    simp
  · intro c
    unfold fetch_microsoft_learn
    rw [hms]
  · intro c f r hc hf hr
    have hacc : r ∈ accumulate env :=
      runCategories_mem_rev env CATEGORIES c r hc
        (runFetchers_mem_rev env c FETCHERS f r hf hr)
    exact dedupAux_url_mem (accumulate env) [] r hacc (List.not_mem_nil _)

/-- Witness for C4: in the all-failing environment the Khan Academy adapter's
"IT / Cybersecurity" resource keeps its url in the final catalog. -/
theorem adapter_isolation_witness :
    envDown.ytNet = (fun _ => Except.error ())
    ∧ envDown.msNet = (fun _ => Except.error ())
    ∧ "IT / Cybersecurity" ∈ CATEGORIES
    ∧ rKhanIT ∈ fetch_khan envDown "IT / Cybersecurity"
    ∧ (∃ rr, rr ∈ (run_scraper envDown).resources ∧ rr.url = rKhanIT.url) :=
  ⟨rfl, rfl, by decide, by decide,
   (adapter_isolation envDown rfl rfl).2.2 "IT / Cybersecurity" fetch_khan rKhanIT
     (by decide)
     (List.Mem.tail _ (List.Mem.tail _ (List.Mem.tail _ (List.Mem.tail _
      (List.Mem.tail _ (List.Mem.tail _ (List.Mem.tail _ (List.Mem.tail _
      (List.Mem.tail _ (List.Mem.tail _ (List.Mem.head _)))))))))))
     (by decide)⟩

/-- Every resource a `clockMap` loop builds is stamped with some tick of the
clock; under a clock whose reads all return `d`, that stamp is `d`. -/
theorem clockMap_retrieved {α : Type} (g : α → String → Resource)
    (hg : ∀ x dt, (g x dt).retrieved = dt) (clock : Nat → String) (d : String)
    (hc : ∀ j, clock j = d) :
    ∀ (l : List α) (k : Nat) (r : Resource),
      r ∈ (clockMap g clock l k).1 → r.retrieved = d := by
  intro l
  induction l with
  | nil => intro k r h; simp [clockMap] at h
  | cons x xs ih =>
    intro k r h
    simp only [clockMap] at h
    rcases List.mem_cons.mp h with rfl | h2
    · rw [hg x (clock k)]
      exact hc k
    · exact ih (k + 1) r h2

theorem ytLiveLoop_retrieved (env : Env) (clock : Nat → String) (c : String)
    (d : String) (hc : ∀ j, clock j = d) :
    ∀ (items : List YtItem) (k : Nat) (r : Resource),
      r ∈ (ytLiveLoop env clock c items k).1 → r.retrieved = d := by
  intro items
  induction items with
  | nil => intro k r h; simp [ytLiveLoop] at h
  | cons item rest ih =>
    intro k r h
    simp only [ytLiveLoop] at h
    split at h
    · exact ih k r h
    · rcases List.mem_cons.mp h with rfl | h2
      · exact hc k
      · exact ih (k + 1) r h2

theorem youtube_live_clock_retrieved (env : Env) (clock : Nat → String)
    (c : String) (d : String) (hc : ∀ j, clock j = d) (k : Nat) (r : Resource)
    (h : r ∈ (youtube_live_clock env clock c k).1) : r.retrieved = d := by
  unfold youtube_live_clock at h
  split at h
  · simp at h
  · exact ytLiveLoop_retrieved env clock c d hc _ k r h

theorem fetch_youtube_clock_retrieved (env : Env) (clock : Nat → String)
    (d : String) (hc : ∀ j, clock j = d) (c : String) (k : Nat) (r : Resource)
    (h : r ∈ (fetch_youtube_clock env clock c k).1) : r.retrieved = d := by
  unfold fetch_youtube_clock at h
  rcases List.mem_append.mp h with h1 | h2
  · exact youtube_live_clock_retrieved env clock c d hc k r h1
  · exact clockMap_retrieved _ (fun x dt => rfl) clock d hc _ _ r h2

theorem msLoop_clock_retrieved (env : Env) (clock : Nat → String) (c : String)
    (terms : List String) (d : String) (hc : ∀ j, clock j = d) :
    ∀ (items : List MsItem) (count k : Nat) (r : Resource),
      r ∈ (msLoop_clock env clock c terms items count k).1 → r.retrieved = d := by
  intro items
  induction items with
  | nil => intro count k r h; simp [msLoop_clock] at h
  | cons item rest ih =>
    intro count k r h
    simp only [msLoop_clock] at h
    split at h
    · exact ih count k r h
    · split at h
      · rcases List.mem_singleton.mp h with rfl
        exact hc k
      · rcases List.mem_cons.mp h with rfl | h2
        · exact hc k
        · exact ih (count + 1) (k + 1) r h2

theorem fetch_microsoft_learn_clock_retrieved (env : Env)
    (clock : Nat → String) (d : String) (hc : ∀ j, clock j = d) (c : String)
    (k : Nat) (r : Resource)
    (h : r ∈ (fetch_microsoft_learn_clock env clock c k).1) : r.retrieved = d := by
  unfold fetch_microsoft_learn_clock at h
  split at h
  · simp at h
  · exact msLoop_clock_retrieved env clock c _ d hc _ _ k r h

theorem fetch_mit_ocw_clock_retrieved (env : Env) (clock : Nat → String)
    (d : String) (hc : ∀ j, clock j = d) (c : String) (k : Nat) (r : Resource)
    (h : r ∈ (fetch_mit_ocw_clock env clock c k).1) : r.retrieved = d := by
  unfold fetch_mit_ocw_clock at h
  exact clockMap_retrieved _ (fun x dt => rfl) clock d hc _ k r h

theorem fetch_freecodecamp_clock_retrieved (env : Env) (clock : Nat → String)
    (d : String) (hc : ∀ j, clock j = d) (c : String) (k : Nat) (r : Resource)
    (h : r ∈ (fetch_freecodecamp_clock env clock c k).1) : r.retrieved = d := by
  unfold fetch_freecodecamp_clock at h
  exact clockMap_retrieved _ (fun x dt => rfl) clock d hc _ k r h

theorem fetch_aws_clock_retrieved (env : Env) (clock : Nat → String)
    (d : String) (hc : ∀ j, clock j = d) (c : String) (k : Nat) (r : Resource)
    (h : r ∈ (fetch_aws_clock env clock c k).1) : r.retrieved = d := by
  unfold fetch_aws_clock at h
  exact clockMap_retrieved _ (fun x dt => rfl) clock d hc _ k r h

theorem fetch_edx_clock_retrieved (env : Env) (clock : Nat → String)
    (d : String) (hc : ∀ j, clock j = d) (c : String) (k : Nat) (r : Resource)
    (h : r ∈ (fetch_edx_clock env clock c k).1) : r.retrieved = d := by
  unfold fetch_edx_clock at h
  exact clockMap_retrieved _ (fun x dt => rfl) clock d hc _ k r h

theorem fetch_stanford_clock_retrieved (env : Env) (clock : Nat → String)
    (d : String) (hc : ∀ j, clock j = d) (c : String) (k : Nat) (r : Resource)
    (h : r ∈ (fetch_stanford_clock env clock c k).1) : r.retrieved = d := by
  unfold fetch_stanford_clock at h
  exact clockMap_retrieved _ (fun x dt => rfl) clock d hc _ k r h

theorem fetch_ibm_clock_retrieved (env : Env) (clock : Nat → String)
    (d : String) (hc : ∀ j, clock j = d) (c : String) (k : Nat) (r : Resource)
    (h : r ∈ (fetch_ibm_clock env clock c k).1) : r.retrieved = d := by
  unfold fetch_ibm_clock at h
  exact clockMap_retrieved _ (fun x dt => rfl) clock d hc _ k r h

theorem fetch_google_clock_retrieved (env : Env) (clock : Nat → String)
    (d : String) (hc : ∀ j, clock j = d) (c : String) (k : Nat) (r : Resource)
    (h : r ∈ (fetch_google_clock env clock c k).1) : r.retrieved = d := by
  unfold fetch_google_clock at h
  exact clockMap_retrieved _ (fun x dt => rfl) clock d hc _ k r h

theorem fetch_helsinki_clock_retrieved (env : Env) (clock : Nat → String)
    (d : String) (hc : ∀ j, clock j = d) (c : String) (k : Nat) (r : Resource)
    (h : r ∈ (fetch_helsinki_clock env clock c k).1) : r.retrieved = d := by
  unfold fetch_helsinki_clock at h
  exact clockMap_retrieved _ (fun x dt => rfl) clock d hc _ k r h

theorem fetch_khan_clock_retrieved (env : Env) (clock : Nat → String)
    (d : String) (hc : ∀ j, clock j = d) (c : String) (k : Nat) (r : Resource)
    (h : r ∈ (fetch_khan_clock env clock c k).1) : r.retrieved = d := by
  unfold fetch_khan_clock at h
  exact clockMap_retrieved _ (fun x dt => rfl) clock d hc _ k r h

theorem fetch_saylor_clock_retrieved (env : Env) (clock : Nat → String)
    (d : String) (hc : ∀ j, clock j = d) (c : String) (k : Nat) (r : Resource)
    (h : r ∈ (fetch_saylor_clock env clock c k).1) : r.retrieved = d := by
  unfold fetch_saylor_clock at h
  exact clockMap_retrieved _ (fun x dt => rfl) clock d hc _ k r h

/-- Under a constant-date clock, every clock-threaded adapter stamps that
date. -/
theorem fetchers_clock_retrieved (env : Env) (clock : Nat → String)
    (d : String) (hc : ∀ j, clock j = d) :
    ∀ f ∈ FETCHERS_CLOCK, ∀ (c : String) (k : Nat) (r : Resource),
      r ∈ (f env clock c k).1 → r.retrieved = d := by
  intro f hf
  simp only [FETCHERS_CLOCK, List.mem_cons, List.not_mem_nil, or_false] at hf
  rcases hf with rfl | rfl | rfl | rfl | rfl | rfl | rfl | rfl | rfl | rfl | rfl | rfl
  · exact fetch_youtube_clock_retrieved env clock d hc
  · exact fetch_mit_ocw_clock_retrieved env clock d hc
  · exact fetch_freecodecamp_clock_retrieved env clock d hc
  · exact fetch_microsoft_learn_clock_retrieved env clock d hc
  · exact fetch_aws_clock_retrieved env clock d hc
  · exact fetch_edx_clock_retrieved env clock d hc
  · exact fetch_stanford_clock_retrieved env clock d hc
  · exact fetch_ibm_clock_retrieved env clock d hc
  · exact fetch_google_clock_retrieved env clock d hc
  · exact fetch_helsinki_clock_retrieved env clock d hc
  · exact fetch_khan_clock_retrieved env clock d hc
  · exact fetch_saylor_clock_retrieved env clock d hc

theorem runFetchers_clock_retrieved (env : Env) (clock : Nat → String)
    (c : String) (d : String) :
    ∀ (fs : List (Env → (Nat → String) → String → Nat → List Resource × Nat)),
      (∀ f ∈ fs, ∀ (k : Nat) (r : Resource),
        r ∈ (f env clock c k).1 → r.retrieved = d) →
      ∀ (k : Nat) (r : Resource),
        r ∈ (runFetchers_clock env clock c fs k).1 → r.retrieved = d := by
  intro fs
  induction fs with
  | nil => intro hfs k r h; simp [runFetchers_clock] at h
  | cons f fs ih =>
    intro hfs k r h
    simp only [runFetchers_clock] at h
    rcases List.mem_append.mp h with h1 | h2
    · exact hfs f (List.mem_cons_self _ _) k r h1
    · exact ih (fun g hg => hfs g (List.mem_cons_of_mem _ hg)) _ r h2

theorem runCategories_clock_retrieved (env : Env) (clock : Nat → String)
    (d : String) (hc : ∀ j, clock j = d) :
    ∀ (cats : List String) (k : Nat) (r : Resource),
      r ∈ (runCategories_clock env clock cats k).1 → r.retrieved = d := by
  intro cats
  induction cats with
  | nil => intro k r h; simp [runCategories_clock] at h
  | cons c cs ih =>
    intro k r h
    simp only [runCategories_clock] at h
    rcases List.mem_append.mp h with h1 | h2
    · exact runFetchers_clock_retrieved env clock c d FETCHERS_CLOCK
        (fun f hf => fetchers_clock_retrieved env clock d hc f hf c) k r h1
    · exact ih _ r h2

/-- C5 counterexample: the claim "every resource of one run carries the same
retrieved date" is false once each `datetime.today()` read is modelled as its
own clock read, as the source performs it. Under a clock whose first read
precedes midnight and whose later reads follow it, the catalog contains two
resources whose `retrieved` dates differ. -/
theorem retrieved_not_uniform_across_midnight :
    rMidnight0 ∈ (run_scraper_clock envDown clockMidnight).resources
    ∧ rMidnight1 ∈ (run_scraper_clock envDown clockMidnight).resources
    ∧ rMidnight0.retrieved ≠ rMidnight1.retrieved :=
  ⟨by decide, by decide, by decide⟩

/-- C5 amended: each resource's `retrieved` field is stamped by its own
`datetime.today()` read at build time; whenever all of the run's clock reads
return the same date — the run does not cross midnight — every resource of
the produced catalog carries that date, and it equals the catalog's
`generated` date. -/
theorem retrieved_uniform_of_constant_clock (env : Env)
    (clock : Nat → String) (d : String) (hc : clock = fun _ => d) :
    ((run_scraper_clock env clock).resources.all
      (fun r => r.retrieved == d)) = true
    ∧ (run_scraper_clock env clock).generated = d := by
  have hk : ∀ j, clock j = d := fun j => by rw [hc]
  constructor
  · rw [List.all_eq_true]
    intro r hr
    have hacc : r ∈ (runCategories_clock env clock CATEGORIES 0).1 :=
      dedupAux_sub (runCategories_clock env clock CATEGORIES 0).1 [] r hr
    rw [runCategories_clock_retrieved env clock d hk CATEGORIES 0 r hacc]
    exact beq_self_eq_true d
  · exact hk (runCategories_clock env clock CATEGORIES 0).2

/-- Witness for the amended C5: a constant clock over the all-failing
environment. -/
theorem retrieved_uniform_of_constant_clock_witness :
    clockConst = (fun _ => "2026-02-01")
    ∧ (((run_scraper_clock envDown clockConst).resources.all
        (fun r => r.retrieved == "2026-02-01")) = true
      ∧ (run_scraper_clock envDown clockConst).generated = "2026-02-01") :=
  ⟨rfl, retrieved_uniform_of_constant_clock envDown clockConst "2026-02-01" rfl⟩

/-- C6 counterexample: the claim "a write failure leaves the previously
persisted catalog unmodified" is false. A failure after one character of the
dump leaves the file holding `"N"`, not the prior content: Python's
`open(path, "w")` truncates on open and `json.dump` writes incrementally, so
the terminal write is not atomic. -/
theorem write_not_atomic :
    write_catalog "old catalog" "NEW CATALOG" (some (WriteFailure.midWrite 1)) =
      Except.error "N"
    ∧ ("N" : String) ≠ "old catalog" :=
  ⟨rfl, by decide⟩

/-- C6 amended: a successful write fully overwrites the file with the new
serialization; any write failure is fatal to the run (the exception
propagates, no retry); a failure of `open` itself leaves the prior catalog
unmodified; but a failure after `k` characters leaves the truncated partial
serialization in place. -/
theorem write_failure_behavior (prior serialized : String) (k : Nat) :
    write_catalog prior serialized none = Except.ok serialized
    ∧ write_catalog prior serialized (some WriteFailure.openFail) =
        Except.error prior
    ∧ write_catalog prior serialized (some (WriteFailure.midWrite k)) =
        Except.error (pyTruncate serialized k) :=
  ⟨rfl, rfl, rfl⟩

/-- C7 (code bug): the Microsoft Learn relevance filter is not the claimed
case-insensitive substring match. The category "UX Design" has the required
term "UX design", which occurs — compared case-insensitively — in the item
`msItemUX`'s combined title+summary text (third conjunct), yet the adapter
drops the item and returns the empty list (first conjunct): the code lowers
the combined text but compares the terms verbatim, so a term containing an
upper-case letter never matches. -/
theorem ms_filter_drops_case_insensitive_match :
    fetch_microsoft_learn envUX "UX Design" = []
    ∧ "UX design" ∈ ((List.lookup "UX Design" MS_RELEVANCE_KEYWORDS).getD [])
    ∧ pyInStr (pyLower "UX design")
        (pyLower (msItemUX.title ++ " " ++ msItemUX.summary)) = true :=
  ⟨rfl, by decide, by decide⟩

/-- C8 counterexample: the claim "`description` is non-empty regardless of
what the service returns" is false. When the service succeeds but replies
with empty text, the produced catalog contains `rBlankDesc`, whose
`description` is the empty string: the code never checks the success path's
reply for emptiness. -/
theorem description_empty_in_catalog :
    rBlankDesc ∈ (run_scraper envBlank).resources ∧ rBlankDesc.description = "" :=
  ⟨by decide, rfl⟩

/-- C8 amended: whenever the external service fails (the fallback path the
spec describes), every resource of the produced catalog has a non-empty
description. -/
theorem description_nonempty_on_service_failure (env : Env)
    (h : env.svc = svcDown) :
    ((run_scraper env).resources.all (fun r => ! (r.description == ""))) = true := by
  rw [List.all_eq_true]
  intro r hr
  obtain ⟨c, _, _, _, t, raw, hdesc⟩ :=
    accumulate_props env r (dedupAux_sub (accumulate env) [] r hr)
  have hne : r.description ≠ "" := by
    rw [hdesc, h]
    exact clean_description_fallback_ne svcDown t raw c rfl
  rw [beq_eq_false_iff_ne.mpr hne]
  rfl

/-- Witness for the amended C8 at the all-failing environment. -/
theorem description_nonempty_on_service_failure_witness :
    envDown.svc = svcDown
    ∧ ((run_scraper envDown).resources.all (fun r => ! (r.description == ""))) = true :=
  ⟨rfl, description_nonempty_on_service_failure envDown rfl⟩

/-- C9: the dedup step is idempotent — applying it twice to any resource list
yields the same result as applying it once. -/
theorem dedup_idempotent (rs : List Resource) : dedup (dedup rs) = dedup rs := by
  apply dedupAux_fixed
  · intro r hr
    exact List.not_mem_nil r.url
  · exact dedupAux_nodup_urls rs []

/-- C10: a category that is not a key of a curated adapter's static table
makes that adapter return the empty list rather than fail — here for the edX
and Khan Academy adapters, for every environment and category. -/
theorem curated_missing_category (env : Env) (c : String) :
    (List.lookup c EDX_CURATED = none → fetch_edx env c = [])
    ∧ (List.lookup c KHAN_CURATED = none → fetch_khan env c = []) := by
  constructor
  · intro h
    unfold fetch_edx
    rw [h]
    rfl
  · intro h
    unfold fetch_khan
    rw [h]
    rfl

/-- Witness for C10 at the claim's examples: "UX Design" is no key of the edX
table and "Data Science AI" no key of the Khan Academy table, and both
adapters return the empty list there. -/
theorem curated_missing_category_witness :
    List.lookup "UX Design" EDX_CURATED = none
    ∧ fetch_edx envDown "UX Design" = []
    ∧ List.lookup "Data Science AI" KHAN_CURATED = none
    ∧ fetch_khan envDown "Data Science AI" = [] :=
  ⟨rfl, (curated_missing_category envDown "UX Design").1 rfl, rfl,
   (curated_missing_category envDown "Data Science AI").2 rfl⟩

end Scraper
